import Mathlib

/-!
Verification of the TR-ZERO agent-based carbon-market simulation
(`src/ajan_tabanli_simulasyon.py`) against its design specification.

The Python module is shallowly embedded below.  Python floats are modelled
as exact rationals (`ℚ`); the one transcendental operation in the source,
`arz_talep_orani ** 0.5` in `PiyasaOperatoru.step` (line 182), is modelled
by an explicit function parameter `rt : ℚ → ℚ`, since no property proved
here depends on the value of the square root (the clamp to
`[TABAN_FIYAT, TAVAN_FIYAT]` makes the bound independent of it).
Random draws made by agents are threaded through an explicit generator
interface, so that every run is a pure function of the seed and the
configuration, exactly as in the single-threaded source.
-/

namespace TrZero

/-- `ETS_PARAMS["PILOT_BASLANGIC"]` (line 89). -/
def PILOT_BASLANGIC : ℤ := 2026

/-- `ETS_PARAMS["TAM_UYGULAMA"]` (line 90). -/
def TAM_UYGULAMA : ℤ := 2028

/-- `ETS_PARAMS["TABAN_FIYAT"]` (line 91), $/ton. -/
def TABAN_FIYAT : ℚ := 20

/-- `ETS_PARAMS["TAVAN_FIYAT"]` (line 92), $/ton. -/
def TAVAN_FIYAT : ℚ := 150

/-- `ETS_PARAMS["CEZA_MIKTARI"]` (line 93), $/ton. -/
def CEZA_MIKTARI : ℚ := 100

/-- `TurkiyeETSModel.EMISYON_FAKTORU_TR = 0.442` ton CO₂/MWh (line 661). -/
def EMISYON_FAKTORU_TR : ℚ := 442/1000

/-- One abatement measure of a sector's `mac_onlemler` catalog:
marginal abatement cost ($/ton), fractional reduction potential,
and duration in years (lines 109-113 and analogues). -/
structure Onlem where
  mac : ℚ
  potansiyel : ℚ
  sure : ℕ
  deriving DecidableEq, Repr

/-- Facility lifecycle status, the four string values of
`EndustriyelTesis.durum` (line 242). -/
inductive Durum where
  | Aktif
  | Donusum
  | Temiz
  | Kapali
  deriving DecidableEq, Repr

/-- State of an `EndustriyelTesis` agent (lines 226-259).  The sector
profile fields consulted by the behaviour (`maliyet_limit`,
`yatirim_bedeli`, `duyarlilik`, `skdm_kapsam`, `mac_onlemler`) are stored
inline, as the Python object stores `self.profil`.  Fields that no step
reads (`sektor`, `city`) are omitted. -/
structure Tesis where
  emisyon : ℚ
  baslangic_emisyon : ℚ
  ihracatci : Bool
  skdm_kapsam : Bool
  durum : Durum
  yatirim_durumu : Option String
  kalan_yatirim_suresi : ℕ
  emisyon_azalma_potansiyeli : ℚ
  maliyet_limit : ℚ
  yatirim_bedeli : ℚ
  duyarlilik : String
  mac_onlemler : List (String × Onlem)
  ucretsiz_tahsisat : ℚ
  izin_bankasi : ℚ
  net_emisyon : ℚ
  ceza_durumu : Bool
  ceza_miktari : ℚ
  deriving DecidableEq, Repr

/-- The model-level shared state read by a facility or household during
its step: `model.yil`, `model.karbon_fiyati`, `model.ab_skdm_fiyat`,
`model.tesvik_miktari` (lines 688-692). -/
structure Cevre where
  yil : ℤ
  karbon_fiyati : ℚ
  ab_skdm_fiyat : ℚ
  tesvik_miktari : ℚ
  deriving DecidableEq, Repr

/-- Effective carbon price of a facility (lines 266-270): exporters under
CBAM coverage pay `max(domestic, border)`, everyone else the domestic
price. -/
def efektifFiyat (env : Cevre) (f : Tesis) : ℚ :=
  if f.ihracatci ∧ f.skdm_kapsam then max env.karbon_fiyati env.ab_skdm_fiyat
  else env.karbon_fiyati

/-- Free-allocation and banking reconciliation, part 2 of
`EndustriyelTesis.step` (lines 272-296).  Surplus allocation is banked and
net emission set to 0; a deficit first draws down the bank and the
remainder becomes the net uncovered emission. -/
def tahsisatGuncelle (env : Cevre) (f : Tesis) : Tesis :=
  if env.yil ≥ PILOT_BASLANGIC then
    let ucretsiz_oran : ℚ := if env.yil < TAM_UYGULAMA then 1 else 7/10
    let uc := f.baslangic_emisyon * ucretsiz_oran
    let fazla := uc - f.emisyon
    if fazla > 0 then
      { f with ucretsiz_tahsisat := uc
               izin_bankasi := f.izin_bankasi + fazla
               net_emisyon := 0 }
    else
      let eksik := |fazla|
      let bankadan := min eksik f.izin_bankasi
      { f with ucretsiz_tahsisat := uc
               izin_bankasi := f.izin_bankasi - bankadan
               net_emisyon := eksik - bankadan }
  else
    { f with net_emisyon := 0 }

/-- Sum `Σ_{t=1..n} tasarruf / 1.08^t`, the discounted-savings loop of
`_karar_ver` (lines 369-370); `1.08 = 27/25`. -/
def npvToplam (tasarruf : ℚ) : ℕ → ℚ
  | 0 => 0
  | n + 1 => npvToplam tasarruf n + tasarruf / (27/25 : ℚ) ^ (n + 1)

/-- NPV of one measure as computed by `_karar_ver` (lines 357-370):
annual abatement in Mt is converted to tons with the `1e6` factor, the
investment cost is zero for negative-MAC measures. -/
def npvHesap (efektif_fiyat emisyon : ℚ) (o : Onlem) : ℚ :=
  let yillik_azaltim := emisyon * o.potansiyel
  let yillik_tasarruf := yillik_azaltim * efektif_fiyat * 1000000
  let yatirim_maliyeti : ℚ := if o.mac > 0 then yillik_azaltim * o.mac * 1000000 else 0;
  -yatirim_maliyeti + npvToplam yillik_tasarruf 10

/-- The measure-selection loop of `_karar_ver` (lines 349-375): scan the
catalog in order, skip measures with `mac >= efektif_fiyat`, keep the
running strictly-best NPV together with the measure achieving it. -/
def enIyiSec (efektif_fiyat emisyon : ℚ) :
    List (String × Onlem) → ℚ × Option (String × Onlem) → ℚ × Option (String × Onlem)
  | [], acc => acc
  | p :: rest, acc =>
    if p.2.mac ≥ efektif_fiyat then enIyiSec efektif_fiyat emisyon rest acc
    else
      let npv := npvHesap efektif_fiyat emisyon p.2
      if npv > acc.1 then enIyiSec efektif_fiyat emisyon rest (npv, some p)
      else enIyiSec efektif_fiyat emisyon rest acc

/-- Result of `_karar_ver`; the `yatirim` constructor carries the value of
`self._yatirim_onlemi_kaydet` (`none` on the subsidy and penalty paths,
which return before the attribute is set). -/
inductive Karar where
  | yatirim (kayit : Option (String × Onlem))
  | kapat
  | bekle
  deriving DecidableEq, Repr

/-- `EndustriyelTesis._karar_ver` (lines 317-388): subsidy-sensitive
sectors compare the offered subsidy against 60 percent of the investment
cost times 1000; a penalty forces investment; otherwise the best-NPV
measure is chosen (initial best is `-9999`), investment happens iff the
best NPV is positive, closure iff the net uncovered-emission cost exceeds
the shutdown limit. -/
def kararVer (env : Cevre) (f : Tesis) (efektif_fiyat : ℚ) : Karar :=
  if f.duyarlilik = "Tesvik" then
    if env.tesvik_miktari ≥ f.yatirim_bedeli * (6/10) * 1000 then .yatirim none
    else .bekle
  else if f.ceza_durumu then .yatirim none
  else
    let sonuc := enIyiSec efektif_fiyat f.emisyon f.mac_onlemler (-9999, none)
    if sonuc.1 > 0 then .yatirim sonuc.2
    else if f.net_emisyon > 0 ∧ f.net_emisyon * efektif_fiyat > f.maliyet_limit then .kapat
    else .bekle

/-- `EndustriyelTesis._yatirim_baslat` (lines 390-414): use the measure
recorded by the decision, else fall back to the first catalog measure
whose MAC is below the carbon price, else a generic 3-year, 20-percent
improvement; in every case the facility enters `Donusum`. -/
def yatirimBaslat (karbon_fiyati : ℚ) (kayit : Option (String × Onlem)) (f : Tesis) : Tesis :=
  let secim := match kayit with
    | some p => some p
    | none => f.mac_onlemler.find? fun p => p.2.mac < karbon_fiyati
  match secim with
  | some (adi, o) =>
    { f with yatirim_durumu := some adi
             kalan_yatirim_suresi := o.sure
             emisyon_azalma_potansiyeli := o.potansiyel
             durum := .Donusum }
  | none =>
    { f with yatirim_durumu := some "genel_iyilestirme"
             kalan_yatirim_suresi := 3
             emisyon_azalma_potansiyeli := 1/5
             durum := .Donusum }

/-- `EndustriyelTesis.step` (lines 261-315): closed facilities return
immediately; then the effective price and the allocation/banking
reconciliation; a running investment counts down and, on completion,
reduces emission, moves to `Temiz` and clears the penalty flag; an
`Aktif` facility runs the decision procedure. -/
def tesisStep (env : Cevre) (f : Tesis) : Tesis :=
  if f.durum = .Kapali then f
  else
    let ef := efektifFiyat env f
    let f1 := tahsisatGuncelle env f
    if f1.kalan_yatirim_suresi > 0 then
      let f2 := { f1 with kalan_yatirim_suresi := f1.kalan_yatirim_suresi - 1 }
      if f2.kalan_yatirim_suresi = 0 then
        { f2 with emisyon := f2.emisyon * (1 - f2.emisyon_azalma_potansiyeli)
                  durum := .Temiz
                  ceza_durumu := false }
      else f2
    else if f1.durum = .Aktif then
      match kararVer env f1 ef with
      | .yatirim kayit => yatirimBaslat ef kayit f1
      | .kapat => { f1 with durum := .Kapali, emisyon := 0 }
      | .bekle => f1
    else f1

/-- State of the `PiyasaOperatoru` agent (lines 155-162). -/
structure Piyasa where
  cap : ℚ
  azalma_orani : ℚ
  piyasa_fiyati : ℚ
  fiyat_gecmisi : List ℚ
  toplam_gelir : ℚ
  deriving DecidableEq, Repr

/-- `PiyasaOperatoru.step` (lines 164-199).  `rt` models
`arz_talep_orani ** 0.5`; `toplam_emisyon` is the total emission of
facilities not in `Kapali` status, computed by
`_toplam_emisyon_hesapla` (lines 201-207).  Returns the stepped operator
state; the published model price is `piyasa_fiyati` of the result. -/
def piyasaStep (rt : ℚ → ℚ) (yil : ℤ) (toplam_emisyon : ℚ) (p : Piyasa) : Piyasa :=
  let p1 : Piyasa := if yil ≥ PILOT_BASLANGIC
    then { p with cap := p.cap * (1 - p.azalma_orani) } else p
  let p2 : Piyasa :=
    if yil ≥ PILOT_BASLANGIC ∧ p1.cap > 0 ∧ toplam_emisyon > 0 then
      let arz_talep_orani := toplam_emisyon / p1.cap
      let ham := if arz_talep_orani > 1
        then TABAN_FIYAT * arz_talep_orani ^ 2
        else TABAN_FIYAT * rt arz_talep_orani;
      { p1 with piyasa_fiyati := max TABAN_FIYAT (min TAVAN_FIYAT ham) }
    else
      { p1 with piyasa_fiyati := 0 }
  let p3 : Piyasa := { p2 with fiyat_gecmisi := p2.fiyat_gecmisi ++ [p2.piyasa_fiyati] }
  if yil ≥ TAM_UYGULAMA ∧ p3.piyasa_fiyati > 0 then
    { p3 with toplam_gelir := p3.toplam_gelir + p3.cap * (3/10) * p3.piyasa_fiyati }
  else p3

/-- State of a `Hanehalki` agent (lines 528-555); `durum` is the string
`"Aktif"` at creation and is never written afterwards. -/
structure Hane where
  tuketim : ℚ
  elastikiyet : ℚ
  emisyon : ℚ
  baslangic_emisyon : ℚ
  durum : String
  deriving DecidableEq, Repr

/-- `Hanehalki.step` (lines 557-570): with a positive carbon price, the
emission is consumption (kWh → MWh) times the grid factor times
`max(0.5, 1 + elasticity * price/100)`; otherwise just consumption times
the grid factor. -/
def haneStep (env : Cevre) (h : Hane) : Hane :=
  if h.durum ≠ "Aktif" then h
  else if env.karbon_fiyati > 0 then
    let fiyat_orani := env.karbon_fiyati / 100
    let fiyat_etkisi := max (1/2 : ℚ) (1 + h.elastikiyet * fiyat_orani)
    { h with emisyon := h.tuketim / 1000 * EMISYON_FAKTORU_TR * fiyat_etkisi }
  else
    { h with emisyon := h.tuketim / 1000 * EMISYON_FAKTORU_TR }

/-- State of an `IhracatciAjani` agent (lines 429-434): the inherited
facility state plus the CBAM cost and competitiveness index. -/
structure IhracatciTesis where
  tesis : Tesis
  ihracat_payi : ℚ
  cbam_maliyeti : ℚ
  rekabet_gucu_indeksi : ℚ
  deriving DecidableEq, Repr

/-- `IhracatciAjani._rekabet_gucu_hesapla` (lines 460-466). -/
def rekabetGucuHesapla (a : IhracatciTesis) : IhracatciTesis :=
  if a.cbam_maliyeti > 0 then
    { a with rekabet_gucu_indeksi := max (3/10 : ℚ) (1 - a.cbam_maliyeti / 50 * (1/10)) }
  else
    { a with rekabet_gucu_indeksi := 1 }

/-- `IhracatciAjani.step` (lines 436-458): closed facilities return
immediately; CBAM-covered exporters compute the border cost net of the
domestic carbon cost already paid and refresh the competitiveness index;
finally the inherited `EndustriyelTesis.step` runs. -/
def ihracatciStep (env : Cevre) (a : IhracatciTesis) : IhracatciTesis :=
  if a.tesis.durum = .Kapali then a
  else
    let a1 :=
      if a.tesis.ihracatci ∧ a.tesis.skdm_kapsam then
        let cb := a.tesis.emisyon * env.ab_skdm_fiyat
        let cb2 := if env.karbon_fiyati > 0
          then cb - min cb (a.tesis.emisyon * env.karbon_fiyati) else cb
        rekabetGucuHesapla { a with cbam_maliyeti := cb2 }
      else
        { a with cbam_maliyeti := 0 }
    { a1 with tesis := tesisStep env a1.tesis }

/-- Effect of one `MRVAjani.step` visit (lines 496-516) on a single
facility: closed facilities are skipped before any draw; `denetle` models
`random.random() < 0.2`, `uyumsuz` models `random.random() < 0.05`, and
`oran` models `np.random.uniform(0.05, 0.15)`.  On a non-compliance the
penalty flag and amount are written onto the facility. -/
def mrvDenetim (denetle uyumsuz : Bool) (oran : ℚ) (f : Tesis) : Tesis :=
  if f.durum ≠ .Kapali ∧ denetle ∧ uyumsuz then
    { f with ceza_durumu := true, ceza_miktari := f.emisyon * oran * CEZA_MIKTARI }
  else f

/-- One operation the simulation can apply to a facility's state during a
run: its own yearly step (also run, unchanged, by the inherited
`IhracatciAjani.step`) or an MRV audit visit. -/
inductive Islem where
  | adim (env : Cevre)
  | denetim (denetle uyumsuz : Bool) (oran : ℚ)

/-- Apply one operation to a facility. -/
def islemUygula : Islem → Tesis → Tesis
  | .adim env, f => tesisStep env f
  | .denetim d u oran, f => mrvDenetim d u oran f

/-- Apply a sequence of operations to a facility, oldest first. -/
def islemlerUygula : List Islem → Tesis → Tesis
  | [], f => f
  | i :: rest, f => islemlerUygula rest (islemUygula i f)

/-- A sector profile of `SEKTOR_PROFILLERI` (lines 101-140). -/
structure SektorProfil where
  baz_emisyon : ℚ
  ihracat_orani : ℚ
  skdm_kapsam : Bool
  maliyet_limit : ℚ
  yatirim_bedeli : ℚ
  duyarlilik : String
  mac_onlemler : List (String × Onlem)
  deriving DecidableEq, Repr

/-- `SEKTOR_PROFILLERI["Enerji"]` (lines 102-114). -/
def Enerji : SektorProfil :=
  { baz_emisyon := 1
    ihracat_orani := 5/100
    skdm_kapsam := false
    maliyet_limit := 90
    yatirim_bedeli := 200
    duyarlilik := "Vergi"
    mac_onlemler :=
      [ ("enerji_verimliligi", ⟨-15, 8/100, 2⟩)
      , ("yakit_degisimi", ⟨35, 20/100, 3⟩)
      , ("yenilenebilir", ⟨50, 35/100, 5⟩) ] }

/-- `SEKTOR_PROFILLERI["Sanayi"]` (lines 115-127). -/
def Sanayi : SektorProfil :=
  { baz_emisyon := 75/100
    ihracat_orani := 40/100
    skdm_kapsam := true
    maliyet_limit := 110
    yatirim_bedeli := 250
    duyarlilik := "Vergi"
    mac_onlemler :=
      [ ("enerji_verimliligi", ⟨-5, 10/100, 2⟩)
      , ("proses_iyilestirme", ⟨25, 15/100, 3⟩)
      , ("teknoloji_degisimi", ⟨60, 30/100, 6⟩) ] }

/-- `SEKTOR_PROFILLERI["Tarim"]` (lines 128-139). -/
def Tarim : SektorProfil :=
  { baz_emisyon := 30/100
    ihracat_orani := 20/100
    skdm_kapsam := false
    maliyet_limit := 999
    yatirim_bedeli := 300
    duyarlilik := "Tesvik"
    mac_onlemler :=
      [ ("gubre_optimizasyonu", ⟨10, 15/100, 1⟩)
      , ("metan_yakalama", ⟨40, 25/100, 5⟩) ] }

/-- Discounted-revenue sum `Σ_{t=1..n} gelir / carpan^t`, the loop of
`ProjeGelistirici._npv_hesapla` (lines 631-633). -/
def iskontoToplam (gelir carpan : ℚ) : ℕ → ℚ
  | 0 => 0
  | n + 1 => iskontoToplam gelir carpan n + gelir / carpan ^ (n + 1)

/-- One renewable project archetype of `proje_tipleri` (lines 595-598). -/
structure Proje where
  kapasite : ℚ
  yatirim : ℚ
  kf : ℚ
  omur : ℕ
  deriving DecidableEq, Repr

/-- The `"GES"` archetype (line 596). -/
def GES : Proje := ⟨10, 700000, 18/100, 25⟩

/-- The `"RES"` archetype (line 597). -/
def RES : Proje := ⟨20, 1200000, 35/100, 25⟩

/-- State of a `ProjeGelistirici` agent (lines 582-588). -/
structure Gelistirici where
  sermaye : ℚ
  risk_primi : ℚ
  projeler : List (String × ℚ × ℤ)
  toplam_kapasite : ℚ
  deriving DecidableEq, Repr

/-- `ProjeGelistirici._npv_hesapla` (lines 616-635): energy revenue at
80 $/MWh, carbon revenue at 0.5 avoided tons per MWh, subsidy revenue per
MW, discounted at the developer's individual risk premium. -/
def projeNpv (risk_primi karbon_fiyati tesvik : ℚ) (pr : Proje) : ℚ :=
  let yatirim := pr.kapasite * pr.yatirim
  let yillik_uretim := pr.kapasite * pr.kf * 8760
  let yillik_gelir := yillik_uretim * 80 + yillik_uretim * (1/2) * karbon_fiyati
    + tesvik * pr.kapasite;
  -yatirim + iskontoToplam yillik_gelir (1 + risk_primi) pr.omur

/-- Evaluation of one archetype inside `ProjeGelistirici.step`
(lines 600-614); the second component accumulates the capacity added to
`model.yenilenebilir_kapasite`. -/
def gelistiriciProje (env : Cevre) (tip : String) (pr : Proje)
    (acc : Gelistirici × ℚ) : Gelistirici × ℚ :=
  let g := acc.1
  let toplam_yatirim := pr.kapasite * pr.yatirim
  if g.sermaye ≥ toplam_yatirim then
    if projeNpv g.risk_primi env.karbon_fiyati env.tesvik_miktari pr > 0 then
      ({ g with sermaye := g.sermaye - toplam_yatirim
                toplam_kapasite := g.toplam_kapasite + pr.kapasite
                projeler := g.projeler ++ [(tip, pr.kapasite, env.yil)] },
       acc.2 + pr.kapasite)
    else acc
  else acc

/-- `ProjeGelistirici.step` (lines 590-614), visiting the two archetypes
in dictionary order. -/
def gelistiriciStep (env : Cevre) (g : Gelistirici) : Gelistirici × ℚ :=
  gelistiriciProje env "RES" RES (gelistiriciProje env "GES" GES (g, 0))

/-- Deterministic pseudo-random generator interface with explicit state
`σ`.  Every random draw the source makes goes through the seeded
`random` / `np.random` generators; the spec leaves the concrete generator
substitutable, so the run below is parametric in it. -/
structure Uretec (σ : Type) where
  tohumla : ℕ → σ
  birim : σ → ℚ × σ
  aralik : σ → ℚ → ℚ → ℚ × σ
  karistir : σ → ℕ → List ℕ × σ

/-- Full state of a `TurkiyeETSModel` (lines 663-745): the shared
globals, the market operator, the MRV revenue accumulator, the four agent
populations and the generator state.  The scenario label and the
`ets_aktif` / `acik_artirma_aktif` booleans only guard `print` calls and
a constant output column, and are omitted. -/
structure ModelDurumu (σ : Type) where
  yil : ℤ
  karbon_fiyati : ℚ
  ab_skdm_fiyat : ℚ
  tesvik_miktari : ℚ
  yenilenebilir_kapasite : ℚ
  piyasa : Piyasa
  mrv_toplam_ceza : ℚ
  tesisler : List Tesis
  ihracatcilar : List IhracatciTesis
  haneler : List Hane
  gelistiriciler : List Gelistirici
  rng : σ

/-- The shared state an agent reads during its step. -/
def cevre {σ : Type} (m : ModelDurumu σ) : Cevre :=
  ⟨m.yil, m.karbon_fiyati, m.ab_skdm_fiyat, m.tesvik_miktari⟩

/-- `PiyasaOperatoru._toplam_emisyon_hesapla` (lines 201-207): emissions
of facility-type agents not in `Kapali` status. -/
def toplamTesisEmisyonu {σ : Type} (m : ModelDurumu σ) : ℚ :=
  ((m.tesisler.filter fun t => t.durum ≠ .Kapali).map Tesis.emisyon).sum
    + ((m.ihracatcilar.filter fun a => a.tesis.durum ≠ .Kapali).map
        fun a => a.tesis.emisyon).sum

/-- One facility visit of `MRVAjani.step` (lines 496-516): the audit and
non-compliance draws, the uniform under-reporting fraction, the penalty
write-back, and the accumulation into `toplam_ceza`.  Closed facilities
are skipped before any draw. -/
def mrvTesisZiyaret {σ : Type} (R : Uretec σ) (f : Tesis) (acc : ℚ × σ) :
    Tesis × (ℚ × σ) :=
  if f.durum = .Kapali then (f, acc)
  else
    let (d1, s1) := R.birim acc.2
    if d1 < 1/5 then
      let (d2, s2) := R.birim s1
      if d2 < 1/20 then
        let (oran, s3) := R.aralik s2 (1/20) (3/20)
        (mrvDenetim true true oran f, (acc.1 + f.emisyon * oran * CEZA_MIKTARI, s3))
      else (f, (acc.1, s2))
    else (f, (acc.1, s1))

/-- MRV visit over a facility list, threading the revenue accumulator and
the generator state. -/
def mrvListe {σ : Type} (R : Uretec σ) : List Tesis → ℚ × σ → List Tesis × (ℚ × σ)
  | [], acc => ([], acc)
  | f :: rest, acc =>
    let (f2, acc2) := mrvTesisZiyaret R f acc
    let (fs, acc3) := mrvListe R rest acc2
    (f2 :: fs, acc3)

/-- MRV visit over the exporter list; the penalty is written onto the
inherited facility state. -/
def mrvIhracatciListe {σ : Type} (R : Uretec σ) :
    List IhracatciTesis → ℚ × σ → List IhracatciTesis × (ℚ × σ)
  | [], acc => ([], acc)
  | a :: rest, acc =>
    let (f2, acc2) := mrvTesisZiyaret R a.tesis acc
    let (as2, acc3) := mrvIhracatciListe R rest acc2
    ({ a with tesis := f2 } :: as2, acc3)

/-- Replace the `k`-th element of a list by its image under `g`. -/
def listeGuncelle {α : Type} : ℕ → (α → α) → List α → List α
  | _, _, [] => []
  | 0, g, x :: xs => g x :: xs
  | k + 1, g, x :: xs => x :: listeGuncelle k g xs

/-- Dispatch one agent step by roster index, mirroring the insertion
order of `TurkiyeETSModel.__init__` (lines 712-745): index 0 is the
market operator, index 1 the MRV agent, then facilities, exporters,
households and project developers. -/
def ajanAdim {σ : Type} (R : Uretec σ) (rt : ℚ → ℚ) (m : ModelDurumu σ) (i : ℕ) :
    ModelDurumu σ :=
  if i = 0 then
    let p := piyasaStep rt m.yil (toplamTesisEmisyonu m) m.piyasa
    { m with piyasa := p, karbon_fiyati := p.piyasa_fiyati }
  else if i = 1 then
    let (ts, acc1) := mrvListe R m.tesisler (m.mrv_toplam_ceza, m.rng)
    let (ihr, acc2) := mrvIhracatciListe R m.ihracatcilar acc1
    { m with tesisler := ts, ihracatcilar := ihr
             mrv_toplam_ceza := acc2.1, rng := acc2.2 }
  else
    let j := i - 2
    if j < m.tesisler.length then
      { m with tesisler := listeGuncelle j (tesisStep (cevre m)) m.tesisler }
    else
      let j2 := j - m.tesisler.length
      if j2 < m.ihracatcilar.length then
        { m with ihracatcilar := listeGuncelle j2 (ihracatciStep (cevre m)) m.ihracatcilar }
      else
        let j3 := j2 - m.ihracatcilar.length
        if j3 < m.haneler.length then
          { m with haneler := listeGuncelle j3 (haneStep (cevre m)) m.haneler }
        else
          let j4 := j3 - m.haneler.length
          match m.gelistiriciler.get? j4 with
          | none => m
          | some g =>
            let (g2, ek) := gelistiriciStep (cevre m) g
            { m with gelistiriciler := listeGuncelle j4 (fun _ => g2) m.gelistiriciler
                     yenilenebilir_kapasite := m.yenilenebilir_kapasite + ek }

/-- One collected row of the model's `DataCollector` (lines 748-766); the
constant `Senaryo` label column is omitted. -/
structure Satir where
  yil : ℤ
  karbon_fiyati : ℚ
  toplam_emisyon : ℚ
  aktif_tesis : ℕ
  donusum_tesis : ℕ
  temiz_tesis : ℕ
  kapali_tesis : ℕ
  yenilenebilir_kapasite : ℚ
  cap : ℚ
  cbam_toplam_maliyet : ℚ
  mrv_toplam_ceza : ℚ
  ihracatci_tesis : ℕ
  hane_sayisi : ℕ
  hane_emisyon : ℚ
  deriving DecidableEq, Repr

/-- Facility count in a given status over the facility-type agents,
`_tesis_sayisi` (lines 799-805). -/
def tesisSayisi {σ : Type} (m : ModelDurumu σ) (d : Durum) : ℕ :=
  (m.tesisler.filter fun t => t.durum = d).length
    + (m.ihracatcilar.filter fun a => a.tesis.durum = d).length

/-- Collect one row, mirroring the `model_reporters` (lines 748-766) and
the helper sums `_toplam_emisyon`, `_cbam_toplam_maliyet`,
`_hanehalki_emisyon` (lines 791-833). -/
def topla {σ : Type} (m : ModelDurumu σ) : Satir :=
  { yil := m.yil
    karbon_fiyati := m.karbon_fiyati
    toplam_emisyon := toplamTesisEmisyonu m
      + ((m.haneler.filter fun h => h.durum ≠ "Kapali").map Hane.emisyon).sum
    aktif_tesis := tesisSayisi m .Aktif
    donusum_tesis := tesisSayisi m .Donusum
    temiz_tesis := tesisSayisi m .Temiz
    kapali_tesis := tesisSayisi m .Kapali
    yenilenebilir_kapasite := m.yenilenebilir_kapasite
    cap := m.piyasa.cap
    cbam_toplam_maliyet := (m.ihracatcilar.map IhracatciTesis.cbam_maliyeti).sum
    mrv_toplam_ceza := m.mrv_toplam_ceza
    ihracatci_tesis := m.ihracatcilar.length
    hane_sayisi := m.haneler.length
    hane_emisyon := (m.haneler.map Hane.emisyon).sum }

/-- `TurkiyeETSModel.step` (lines 835-869): collect the row, shuffle the
agent roster, run every agent in the shuffled order, advance the year. -/
def modelAdim {σ : Type} (R : Uretec σ) (rt : ℚ → ℚ) (m : ModelDurumu σ) :
    Satir × ModelDurumu σ :=
  let satir := topla m
  let n := 2 + m.tesisler.length + m.ihracatcilar.length
    + m.haneler.length + m.gelistiriciler.length
  let (sira, s2) := R.karistir m.rng n
  let m2 := sira.foldl (ajanAdim R rt) { m with rng := s2 }
  (satir, { m2 with yil := m2.yil + 1 })

/-- `TurkiyeETSModel.run_simulation` (lines 871-875): run `n` yearly
steps and return the collected time series. -/
def kosum {σ : Type} (R : Uretec σ) (rt : ℚ → ℚ) (m : ModelDurumu σ) : ℕ → List Satir
  | 0 => []
  | n + 1 =>
    let (satir, m2) := modelAdim R rt m
    satir :: kosum R rt m2 n

/-- Constructor parameters of `TurkiyeETSModel.__init__` (lines 663-677). -/
structure Yapilandirma where
  n_enerji : ℕ
  n_sanayi : ℕ
  n_tarim : ℕ
  n_yatirimci : ℕ
  n_ihracatci : ℕ
  n_hanehalki : ℕ
  baslangic_cap : ℚ
  cap_azalma_orani : ℚ
  ab_skdm_fiyat : ℚ
  tesvik_miktari : ℚ
  vergi_artis_orani : ℚ
  deriving DecidableEq, Repr

/-- Seed selection of `TurkiyeETSModel.__init__` (lines 681-682): an
explicit seed is used as given; otherwise the seed is derived from the
wall clock (`int(datetime.now().timestamp() * 1000) % 100000`), modelled
by the `saat` input.  This is the constructor's only dependence on
anything other than its parameters. -/
def tohumSec (random_seed : Option ℕ) (saat : ℕ) : ℕ :=
  match random_seed with
  | some s => s
  | none => saat % 100000

/-- `EndustriyelTesis.__init__` (lines 226-259): the city choice draw,
the heterogeneous-emission draw on `[0.7, 1.3]` (the regional coefficient
defaults to 1 without the optional database) and the exporter draw. -/
def tesisKur {σ : Type} (R : Uretec σ) (profil : SektorProfil) (s : σ) : Tesis × σ :=
  let (_, s1) := R.birim s
  let (u, s2) := R.aralik s1 (7/10) (13/10)
  let (ih, s3) := R.birim s2
  ({ emisyon := profil.baz_emisyon * u
     baslangic_emisyon := profil.baz_emisyon * u
     ihracatci := ih < profil.ihracat_orani
     skdm_kapsam := profil.skdm_kapsam
     durum := .Aktif
     yatirim_durumu := none
     kalan_yatirim_suresi := 0
     emisyon_azalma_potansiyeli := 0
     maliyet_limit := profil.maliyet_limit
     yatirim_bedeli := profil.yatirim_bedeli
     duyarlilik := profil.duyarlilik
     mac_onlemler := profil.mac_onlemler
     ucretsiz_tahsisat := 0
     izin_bankasi := 0
     net_emisyon := 0
     ceza_durumu := false
     ceza_miktari := 0 }, s3)

/-- `IhracatciAjani.__init__` (lines 429-434): the inherited facility
construction with the `Sanayi` profile plus the exporter extras. -/
def ihracatciKur {σ : Type} (R : Uretec σ) (s : σ) : IhracatciTesis × σ :=
  let (t, s1) := tesisKur R Sanayi s
  ({ tesis := t
     ihracat_payi := Sanayi.ihracat_orani
     cbam_maliyeti := 0
     rekabet_gucu_indeksi := 1 }, s1)

/-- `Hanehalki.__init__` (lines 528-555): the city choice draw, the
income-bracket choice mapped to its consumption range and elasticity, and
the consumption draw. -/
def haneKur {σ : Type} (R : Uretec σ) (s : σ) : Hane × σ :=
  let (_, s1) := R.birim s
  let (g, s2) := R.birim s1
  let asgari : ℚ := if g < 1/3 then 1500 else if g < 2/3 then 2500 else 4000
  let azami : ℚ := if g < 1/3 then 2500 else if g < 2/3 then 4000 else 6000
  let elastikiyet : ℚ := if g < 1/3 then -(6/10) else if g < 2/3 then -(4/10) else -(1/4)
  let (t, s3) := R.aralik s2 asgari azami
  ({ tuketim := t
     elastikiyet := elastikiyet
     emisyon := t / 1000 * EMISYON_FAKTORU_TR
     baslangic_emisyon := t / 1000 * EMISYON_FAKTORU_TR
     durum := "Aktif" }, s3)

/-- `ProjeGelistirici.__init__` (lines 582-588). -/
def gelistiriciKur {σ : Type} (R : Uretec σ) (s : σ) : Gelistirici × σ :=
  let (ser, s1) := R.aralik s 10000000 100000000
  let (risk, s2) := R.aralik s1 (8/100) (15/100)
  ({ sermaye := ser, risk_primi := risk, projeler := [], toplam_kapasite := 0 }, s2)

/-- Build `k` agents in sequence, threading the generator state. -/
def coklu {σ α : Type} (uret : σ → α × σ) : ℕ → σ → List α × σ
  | 0, s => ([], s)
  | k + 1, s =>
    let (a, s1) := uret s
    let (rest, s2) := coklu uret k s1
    (a :: rest, s2)

/-- `TurkiyeETSModel.__init__` (lines 663-766): seed the generator, set
the shared globals (`yil = 2025`, `karbon_fiyati = 0`), create the market
operator with the configured cap and reduction rate, and build the agent
populations in source order. -/
def modelKur {σ : Type} (R : Uretec σ) (cfg : Yapilandirma) (tohum : ℕ) : ModelDurumu σ :=
  let s0 := R.tohumla tohum
  let (enerji, s1) := coklu (tesisKur R Enerji) cfg.n_enerji s0
  let (sanayi, s2) := coklu (tesisKur R Sanayi) cfg.n_sanayi s1
  let (tarim, s3) := coklu (tesisKur R Tarim) cfg.n_tarim s2
  let (ihr, s4) := coklu (ihracatciKur R) cfg.n_ihracatci s3
  let (haneler, s5) := coklu (haneKur R) cfg.n_hanehalki s4
  let (gel, s6) := coklu (gelistiriciKur R) cfg.n_yatirimci s5
  { yil := 2025
    karbon_fiyati := 0
    ab_skdm_fiyat := cfg.ab_skdm_fiyat
    tesvik_miktari := cfg.tesvik_miktari
    yenilenebilir_kapasite := 0
    piyasa := { cap := cfg.baslangic_cap
                azalma_orani := cfg.cap_azalma_orani
                piyasa_fiyati := TABAN_FIYAT
                fiyat_gecmisi := []
                toplam_gelir := 0 }
    mrv_toplam_ceza := 0
    tesisler := enerji ++ sanayi ++ tarim
    ihracatcilar := ihr
    haneler := haneler
    gelistiriciler := gel
    rng := s6 }

/-- A complete simulation run: construct the model from the configuration
and the selected seed, then collect `n` yearly rows.  `saat` is the wall
clock consulted only when no explicit seed is given. -/
def calistir {σ : Type} (R : Uretec σ) (rt : ℚ → ℚ) (cfg : Yapilandirma)
    (random_seed : Option ℕ) (saat : ℕ) (n : ℕ) : List Satir :=
  kosum R rt (modelKur R cfg (tohumSec random_seed saat)) n

/-- Cap trajectory of the market operator over consecutive yearly steps;
tick `n` runs at year `2025 + n`, as in the model (`yil` starts at 2025,
line 688, and the operator steps once per model step). -/
def capGidisat (rt : ℚ → ℚ) (em : ℕ → ℚ) (p0 : Piyasa) : ℕ → Piyasa
  | 0 => p0
  | n + 1 => piyasaStep rt (2025 + n) (em n) (capGidisat rt em p0 n)

/-- Modelled from the spec wording of the decision rule: the NPV of a
measure with annual savings `potential × emission × effectivePrice` and
investment cost `potential × emission × marginalCost` when the marginal
cost is positive, else 0, over 10 years at 8 percent.  The source's
`npvHesap` equals `1000000` times this (its savings and cost carry the
Mt → ton unit factor, so it computes the same NPV in dollars instead of
million dollars). -/
def onlemNpv (efektif_fiyat emisyon : ℚ) (o : Onlem) : ℚ :=
  let tasarruf := o.potansiyel * emisyon * efektif_fiyat
  let maliyet : ℚ := if o.mac > 0 then o.potansiyel * emisyon * o.mac else 0;
  -maliyet + npvToplam tasarruf 10

/-- Modelled from the spec wording: the catalog measures whose marginal
abatement cost is strictly below the effective carbon price. -/
def uygunOnlemler (efektif_fiyat : ℚ) (l : List (String × Onlem)) : List (String × Onlem) :=
  l.filter fun p => decide (p.2.mac < efektif_fiyat)

/-- The no-carbon-price baseline emission of a household (line 570). -/
def haneBazEmisyon (h : Hane) : ℚ := h.tuketim / 1000 * EMISYON_FAKTORU_TR

/-- Statement of the decision-procedure claim for an active facility
without a penalty and outside the subsidy class, at effective price `ef`:
the computed NPV is the spec's million-dollar NPV scaled to dollars; the
scan considers exactly the measures priced strictly below `ef`; the
decision is an investment iff some such measure has positive NPV; and the
measure invested in is the first-seen strict maximizer of the NPV over
the eligible measures. -/
def KararIddiasi (env : Cevre) (f : Tesis) (ef : ℚ) : Prop :=
  (∀ o : Onlem, npvHesap ef f.emisyon o = 1000000 * onlemNpv ef f.emisyon o) ∧
  (∀ acc, enIyiSec ef f.emisyon f.mac_onlemler acc
      = enIyiSec ef f.emisyon (uygunOnlemler ef f.mac_onlemler) acc) ∧
  ((∃ p ∈ uygunOnlemler ef f.mac_onlemler, 0 < onlemNpv ef f.emisyon p.2)
      ↔ ∃ k, kararVer env f ef = .yatirim k) ∧
  (∀ k, kararVer env f ef = .yatirim (some k) →
    0 < onlemNpv ef f.emisyon k.2 ∧
    (∃ l1 l2, uygunOnlemler ef f.mac_onlemler = l1 ++ k :: l2 ∧
      (∀ q ∈ l1, onlemNpv ef f.emisyon q.2 < onlemNpv ef f.emisyon k.2) ∧
      (∀ q ∈ l2, onlemNpv ef f.emisyon q.2 ≤ onlemNpv ef f.emisyon k.2)) ∧
    ((yatirimBaslat ef (some k) f).durum = .Donusum ∧
      (yatirimBaslat ef (some k) f).yatirim_durumu = some k.1 ∧
      (yatirimBaslat ef (some k) f).kalan_yatirim_suresi = k.2.sure ∧
      (yatirimBaslat ef (some k) f).emisyon_azalma_potansiyeli = k.2.potansiyel))

/-- A fresh facility state with the given profile, as produced by the
constructor with heterogeneous emission `e` and exporter flag `ih`
(lines 226-259); used for concrete check inputs. -/
def tesisOrnek (profil : SektorProfil) (e : ℚ) (ih : Bool) : Tesis :=
  { emisyon := e
    baslangic_emisyon := e
    ihracatci := ih
    skdm_kapsam := profil.skdm_kapsam
    durum := .Aktif
    yatirim_durumu := none
    kalan_yatirim_suresi := 0
    emisyon_azalma_potansiyeli := 0
    maliyet_limit := profil.maliyet_limit
    yatirim_bedeli := profil.yatirim_bedeli
    duyarlilik := profil.duyarlilik
    mac_onlemler := profil.mac_onlemler
    ucretsiz_tahsisat := 0
    izin_bankasi := 0
    net_emisyon := 0
    ceza_durumu := false
    ceza_miktari := 0 }

/-- Concrete shared state used by the check inputs: year 2030, domestic
carbon price 150 $/ton, no border price, no subsidy. -/
def cevreOrnek : Cevre := ⟨2030, 150, 0, 0⟩

/-- Concrete counterexample input for the closure claim: an Active
subsidy-class (`Tarim`-profile) facility whose emission grew to 10 Mt
against a zero baseline allocation. -/
def tesisC1 : Tesis := { tesisOrnek Tarim 10 false with baslangic_emisyon := 0 }

/-- Concrete input for the amended closure claim: a tax-class facility
whose single catalog measure is priced above the carbon price. -/
def tesisC1b : Tesis :=
  { tesisOrnek Enerji 2 false with
      baslangic_emisyon := 0
      maliyet_limit := 90
      mac_onlemler := [("pahali_onlem", ⟨200, 1/10, 3⟩)] }

/-- Concrete low-income household for the household-emission claim. -/
def haneC7 : Hane := ⟨2000, -(6/10), 0, 0, "Aktif"⟩

/-- Shared state with carbon price 100 $/ton. -/
def cevreFiyat100 : Cevre := ⟨2030, 100, 0, 0⟩

/-- Shared state with carbon price 20 $/ton (the floor price). -/
def cevreFiyat20 : Cevre := ⟨2030, 20, 0, 0⟩

/-- Concrete market-operator state of the `Siki_ETS` scenario
(lines 907-913): cap 60 Mt, 4 percent yearly reduction. -/
def piyasaOrnek : Piyasa := ⟨60, 1/25, 20, [], 0⟩

/-- The yearly free allocation (lines 273-279): 100 percent of the
initial emission during the pilot years, 70 percent at and after full
implementation. -/
def ucretsizTahsisat (env : Cevre) (f : Tesis) : ℚ :=
  f.baslangic_emisyon * (if env.yil < TAM_UYGULAMA then (1:ℚ) else 7/10)

/-- A closed facility with zero emission, as left behind by the closure
transition (lines 313-315). -/
def kapaliOrnek : Tesis := { tesisOrnek Enerji 0 false with durum := .Kapali }

/-- A closed exporter. -/
def kapaliIhracatciOrnek : IhracatciTesis := ⟨kapaliOrnek, 40/100, 0, 1⟩

/-- A `Sanayi` facility carrying an active penalty flag. -/
def cezaliOrnek : Tesis := { tesisOrnek Sanayi 1 false with ceza_durumu := true }

/-- A penalized facility one year away from completing an investment. -/
def cezaliDonusumOrnek : Tesis :=
  { tesisOrnek Sanayi 1 false with
      ceza_durumu := true
      durum := .Donusum
      kalan_yatirim_suresi := 1
      emisyon_azalma_potansiyeli := 1/10 }

/-!
Helper lemmas about the embedded operations, followed by one theorem per
specification claim.
-/

/-- The allocation reconciliation writes only the allowance-ledger
fields. -/
theorem tahsisat_emisyon (env : Cevre) (f : Tesis) :
    (tahsisatGuncelle env f).emisyon = f.emisyon := by
  simp only [tahsisatGuncelle]; split_ifs <;> rfl

theorem tahsisat_durum (env : Cevre) (f : Tesis) :
    (tahsisatGuncelle env f).durum = f.durum := by
  simp only [tahsisatGuncelle]; split_ifs <;> rfl

theorem tahsisat_kalan (env : Cevre) (f : Tesis) :
    (tahsisatGuncelle env f).kalan_yatirim_suresi = f.kalan_yatirim_suresi := by
  simp only [tahsisatGuncelle]; split_ifs <;> rfl

theorem tahsisat_ceza (env : Cevre) (f : Tesis) :
    (tahsisatGuncelle env f).ceza_durumu = f.ceza_durumu := by
  simp only [tahsisatGuncelle]; split_ifs <;> rfl

theorem tahsisat_duyarlilik (env : Cevre) (f : Tesis) :
    (tahsisatGuncelle env f).duyarlilik = f.duyarlilik := by
  simp only [tahsisatGuncelle]; split_ifs <;> rfl

theorem tahsisat_onlemler (env : Cevre) (f : Tesis) :
    (tahsisatGuncelle env f).mac_onlemler = f.mac_onlemler := by
  simp only [tahsisatGuncelle]; split_ifs <;> rfl

theorem tahsisat_limit (env : Cevre) (f : Tesis) :
    (tahsisatGuncelle env f).maliyet_limit = f.maliyet_limit := by
  simp only [tahsisatGuncelle]; split_ifs <;> rfl

theorem tahsisat_bedel (env : Cevre) (f : Tesis) :
    (tahsisatGuncelle env f).yatirim_bedeli = f.yatirim_bedeli := by
  simp only [tahsisatGuncelle]; split_ifs <;> rfl

/-- Starting an investment writes only the investment fields and the
status. -/
theorem yatirimBaslat_banka (k : ℚ) (o : Option (String × Onlem)) (f : Tesis) :
    (yatirimBaslat k o f).izin_bankasi = f.izin_bankasi := by
  unfold yatirimBaslat; dsimp only; split <;> rfl

theorem yatirimBaslat_net (k : ℚ) (o : Option (String × Onlem)) (f : Tesis) :
    (yatirimBaslat k o f).net_emisyon = f.net_emisyon := by
  unfold yatirimBaslat; dsimp only; split <;> rfl

theorem yatirimBaslat_ceza (k : ℚ) (o : Option (String × Onlem)) (f : Tesis) :
    (yatirimBaslat k o f).ceza_durumu = f.ceza_durumu := by
  unfold yatirimBaslat; dsimp only; split <;> rfl

theorem yatirimBaslat_durum (k : ℚ) (o : Option (String × Onlem)) (f : Tesis) :
    (yatirimBaslat k o f).durum = .Donusum := by
  unfold yatirimBaslat; dsimp only; split <;> rfl

theorem yatirimBaslat_duyarlilik (k : ℚ) (o : Option (String × Onlem)) (f : Tesis) :
    (yatirimBaslat k o f).duyarlilik = f.duyarlilik := by
  unfold yatirimBaslat; dsimp only; split <;> rfl

/-- The operator's cap update (lines 166-168): shrink by the reduction
rate once the scheme is active, otherwise unchanged. -/
theorem piyasaStep_cap (rt : ℚ → ℚ) (yil : ℤ) (em : ℚ) (p : Piyasa) :
    (piyasaStep rt yil em p).cap =
      if yil ≥ PILOT_BASLANGIC then p.cap * (1 - p.azalma_orani) else p.cap := by
  unfold piyasaStep; dsimp only; split_ifs <;> rfl

theorem piyasaStep_azalma (rt : ℚ → ℚ) (yil : ℤ) (em : ℚ) (p : Piyasa) :
    (piyasaStep rt yil em p).azalma_orani = p.azalma_orani := by
  unfold piyasaStep; dsimp only; split_ifs <;> rfl

/-- The operator's published price: the clamped supply-demand formula
when the scheme is active with positive cap and emissions, else 0. -/
theorem piyasaStep_fiyat (rt : ℚ → ℚ) (yil : ℤ) (em : ℚ) (p : Piyasa) :
    (piyasaStep rt yil em p).piyasa_fiyati =
      if yil ≥ PILOT_BASLANGIC ∧ (piyasaStep rt yil em p).cap > 0 ∧ em > 0 then
        max TABAN_FIYAT (min TAVAN_FIYAT
          (if em / (piyasaStep rt yil em p).cap > 1
           then TABAN_FIYAT * (em / (piyasaStep rt yil em p).cap) ^ 2
           else TABAN_FIYAT * rt (em / (piyasaStep rt yil em p).cap)))
      else 0 := by
  rw [piyasaStep_cap]
  by_cases hy : yil ≥ PILOT_BASLANGIC <;>
    · unfold piyasaStep
      simp only [hy, if_true, if_false, ite_true, ite_false]
      split_ifs <;> rfl

/-- C2: after the market operator's step, the clearing price is exactly 0
whenever the year is before the pilot start, or the (post-step) cap is
not positive, or the total active-facility emission is not positive; in
every other case the price lies in `[TABAN_FIYAT, TAVAN_FIYAT]`.  The
division `toplam_emisyon / cap` is guarded by the same condition, so no
division on a zero cap is ever performed. -/
theorem c2_fiyat_sinirlari (rt : ℚ → ℚ) (yil : ℤ) (em : ℚ) (p : Piyasa) :
    ((yil < PILOT_BASLANGIC ∨ (piyasaStep rt yil em p).cap ≤ 0 ∨ em ≤ 0) →
      (piyasaStep rt yil em p).piyasa_fiyati = 0) ∧
    (PILOT_BASLANGIC ≤ yil → 0 < (piyasaStep rt yil em p).cap → 0 < em →
      TABAN_FIYAT ≤ (piyasaStep rt yil em p).piyasa_fiyati ∧
      (piyasaStep rt yil em p).piyasa_fiyati ≤ TAVAN_FIYAT) := by
  rw [piyasaStep_fiyat]
  constructor
  · intro h
    rw [if_neg]
    rintro ⟨h1, h2, h3⟩
    rcases h with h | h | h
    · exact absurd h1 (not_le.mpr h)
    · exact absurd h2 (not_lt.mpr h)
    · exact absurd h3 (not_lt.mpr h)
  · intro h1 h2 h3
    rw [if_pos ⟨h1, h2, h3⟩]
    refine ⟨le_max_left _ _, max_le ?_ (min_le_left _ _)⟩
    norm_num [TABAN_FIYAT, TAVAN_FIYAT]

/-- Witness for C2 at the `Siki_ETS` scenario values in year 2030 with
50 Mt of active emissions. -/
theorem c2_fiyat_sinirlari_witness :
    PILOT_BASLANGIC ≤ 2030 ∧ 0 < (piyasaStep id 2030 50 piyasaOrnek).cap ∧ (0:ℚ) < 50 ∧
      (TABAN_FIYAT ≤ (piyasaStep id 2030 50 piyasaOrnek).piyasa_fiyati ∧
       (piyasaStep id 2030 50 piyasaOrnek).piyasa_fiyati ≤ TAVAN_FIYAT) := by
  have h1 : PILOT_BASLANGIC ≤ (2030:ℤ) := by decide
  have h2 : 0 < (piyasaStep id 2030 50 piyasaOrnek).cap := by
    rw [piyasaStep_cap]
    norm_num [piyasaOrnek, PILOT_BASLANGIC]
  have h3 : (0:ℚ) < 50 := by norm_num
  exact ⟨h1, h2, h3, (c2_fiyat_sinirlari id 2030 50 piyasaOrnek).2 h1 h2 h3⟩

/-- The reduction rate is constant along the cap trajectory. -/
theorem capGidisat_azalma (rt : ℚ → ℚ) (em : ℕ → ℚ) (p0 : Piyasa) (n : ℕ) :
    (capGidisat rt em p0 n).azalma_orani = p0.azalma_orani := by
  induction n with
  | zero => rfl
  | succ n ih => rw [capGidisat, piyasaStep_azalma, ih]

/-- The cap stays nonnegative along the trajectory when it starts
nonnegative and the reduction rate lies in `[0, 1]`. -/
theorem capGidisat_nonneg (rt : ℚ → ℚ) (em : ℕ → ℚ) (p0 : Piyasa)
    (h0 : 0 ≤ p0.cap) (hr1 : p0.azalma_orani ≤ 1) (n : ℕ) :
    0 ≤ (capGidisat rt em p0 n).cap := by
  induction n with
  | zero => exact h0
  | succ n ih =>
    rw [capGidisat, piyasaStep_cap, capGidisat_azalma]
    split_ifs with h
    · have h1r : 0 ≤ 1 - p0.azalma_orani := by linarith
      exact mul_nonneg ih h1r
    · exact ih

/-- C3: with a reduction rate in `[0, 1]` and a nonnegative starting cap,
every tick at or after the pilot-start year multiplies the cap by
`1 - azalma_orani`, which does not increase it, and every tick before the
pilot-start year leaves the cap unchanged (tick `n` runs at year
`2025 + n`). -/
theorem c3_cap_azalisi (rt : ℚ → ℚ) (em : ℕ → ℚ) (p0 : Piyasa)
    (h0 : 0 ≤ p0.cap) (hr0 : 0 ≤ p0.azalma_orani) (hr1 : p0.azalma_orani ≤ 1) (n : ℕ) :
    (PILOT_BASLANGIC ≤ 2025 + (n:ℤ) →
      (capGidisat rt em p0 (n+1)).cap
          = (capGidisat rt em p0 n).cap * (1 - p0.azalma_orani) ∧
      (capGidisat rt em p0 (n+1)).cap ≤ (capGidisat rt em p0 n).cap) ∧
    (2025 + (n:ℤ) < PILOT_BASLANGIC →
      (capGidisat rt em p0 (n+1)).cap = (capGidisat rt em p0 n).cap) := by
  have hcap := piyasaStep_cap rt (2025 + (n:ℤ)) (em n) (capGidisat rt em p0 n)
  have haz := capGidisat_azalma rt em p0 n
  have hnn := capGidisat_nonneg rt em p0 h0 hr1 n
  constructor
  · intro hy
    have heq : (capGidisat rt em p0 (n+1)).cap
        = (capGidisat rt em p0 n).cap * (1 - p0.azalma_orani) := by
      rw [capGidisat, hcap, haz, if_pos hy]
    refine ⟨heq, ?_⟩
    rw [heq]
    have h1r : 1 - p0.azalma_orani ≤ 1 := by linarith
    calc (capGidisat rt em p0 n).cap * (1 - p0.azalma_orani)
        ≤ (capGidisat rt em p0 n).cap * 1 := by
          exact mul_le_mul_of_nonneg_left h1r hnn
      _ = (capGidisat rt em p0 n).cap := mul_one _
  · intro hy
    rw [capGidisat, hcap, if_neg (not_le.mpr hy)]

/-- Witness for C3 at the `Siki_ETS` scenario values for tick 1
(year 2026, the first active year). -/
theorem c3_cap_azalisi_witness :
    (0 ≤ piyasaOrnek.cap ∧ 0 ≤ piyasaOrnek.azalma_orani ∧ piyasaOrnek.azalma_orani ≤ 1) ∧
    ((PILOT_BASLANGIC ≤ 2025 + ((1:ℕ):ℤ) →
      (capGidisat id (fun _ => 50) piyasaOrnek 2).cap
          = (capGidisat id (fun _ => 50) piyasaOrnek 1).cap * (1 - piyasaOrnek.azalma_orani) ∧
      (capGidisat id (fun _ => 50) piyasaOrnek 2).cap
          ≤ (capGidisat id (fun _ => 50) piyasaOrnek 1).cap) ∧
    (2025 + ((1:ℕ):ℤ) < PILOT_BASLANGIC →
      (capGidisat id (fun _ => 50) piyasaOrnek 2).cap
          = (capGidisat id (fun _ => 50) piyasaOrnek 1).cap)) := by
  have h0 : 0 ≤ piyasaOrnek.cap := by norm_num [piyasaOrnek]
  have hr0 : 0 ≤ piyasaOrnek.azalma_orani := by norm_num [piyasaOrnek]
  have hr1 : piyasaOrnek.azalma_orani ≤ 1 := by norm_num [piyasaOrnek]
  exact ⟨⟨h0, hr0, hr1⟩, c3_cap_azalisi id (fun _ => 50) piyasaOrnek h0 hr0 hr1 1⟩

/-- The facility step never touches the allowance bank after the
reconciliation, and leaves it unchanged when the facility is closed. -/
theorem tesisStep_banka (env : Cevre) (f : Tesis) :
    (tesisStep env f).izin_bankasi =
      if f.durum = .Kapali then f.izin_bankasi
      else (tahsisatGuncelle env f).izin_bankasi := by
  unfold tesisStep
  dsimp only
  split_ifs <;> try rfl
  split <;> simp [yatirimBaslat_banka]

/-- The facility step never touches the net uncovered emission after the
reconciliation, and leaves it unchanged when the facility is closed. -/
theorem tesisStep_net (env : Cevre) (f : Tesis) :
    (tesisStep env f).net_emisyon =
      if f.durum = .Kapali then f.net_emisyon
      else (tahsisatGuncelle env f).net_emisyon := by
  unfold tesisStep
  dsimp only
  split_ifs <;> try rfl
  split <;> simp [yatirimBaslat_net]

/-- The facility step never rewrites the sensitivity class. -/
theorem tesisStep_duyarlilik (env : Cevre) (f : Tesis) :
    (tesisStep env f).duyarlilik = f.duyarlilik := by
  unfold tesisStep
  dsimp only
  split_ifs <;> try simp [tahsisat_duyarlilik]
  split <;> simp [yatirimBaslat_duyarlilik, tahsisat_duyarlilik]

/-- An audit visit writes only the penalty fields. -/
theorem mrvDenetim_banka (d u : Bool) (oran : ℚ) (f : Tesis) :
    (mrvDenetim d u oran f).izin_bankasi = f.izin_bankasi := by
  unfold mrvDenetim; split_ifs <;> rfl

theorem mrvDenetim_net (d u : Bool) (oran : ℚ) (f : Tesis) :
    (mrvDenetim d u oran f).net_emisyon = f.net_emisyon := by
  unfold mrvDenetim; split_ifs <;> rfl

theorem mrvDenetim_durum (d u : Bool) (oran : ℚ) (f : Tesis) :
    (mrvDenetim d u oran f).durum = f.durum := by
  unfold mrvDenetim; split_ifs <;> rfl

theorem mrvDenetim_duyarlilik (d u : Bool) (oran : ℚ) (f : Tesis) :
    (mrvDenetim d u oran f).duyarlilik = f.duyarlilik := by
  unfold mrvDenetim; split_ifs <;> rfl

/-- The reconciliation keeps the bank and the net uncovered emission
nonnegative whenever the bank starts nonnegative. -/
theorem tahsisat_koruma (env : Cevre) (f : Tesis) (hb : 0 ≤ f.izin_bankasi) :
    0 ≤ (tahsisatGuncelle env f).izin_bankasi ∧
    0 ≤ (tahsisatGuncelle env f).net_emisyon := by
  unfold tahsisatGuncelle
  dsimp only
  by_cases h1 : env.yil ≥ PILOT_BASLANGIC
  · rw [if_pos h1]
    generalize (if env.yil < TAM_UYGULAMA then (1:ℚ) else 7/10) = oran
    split_ifs with h2
    · refine ⟨?_, le_refl 0⟩
      dsimp only
      linarith
    · refine ⟨?_, ?_⟩ <;> dsimp only
      · have := min_le_right |f.baslangic_emisyon * oran - f.emisyon| f.izin_bankasi
        linarith
      · have := min_le_left |f.baslangic_emisyon * oran - f.emisyon| f.izin_bankasi
        linarith
  · rw [if_neg h1]
    exact ⟨hb, le_refl 0⟩

/-- One facility step keeps the bank and the net uncovered emission
nonnegative. -/
theorem tesisStep_koruma (env : Cevre) (f : Tesis)
    (hb : 0 ≤ f.izin_bankasi) (hn : 0 ≤ f.net_emisyon) :
    0 ≤ (tesisStep env f).izin_bankasi ∧ 0 ≤ (tesisStep env f).net_emisyon := by
  rw [tesisStep_banka, tesisStep_net]
  split_ifs with h
  · exact ⟨hb, hn⟩
  · exact tahsisat_koruma env f hb

/-- C4: along any sequence of facility steps and audit visits, a
nonnegative allowance bank and net uncovered emission stay nonnegative
(both start at 0, lines 254-255); and the yearly reconciliation banks any
surplus of the free allocation over the current emission, leaving the net
uncovered emission 0, while a deficit first draws down the bank and only
the uncovered remainder becomes the net uncovered emission. -/
theorem c4_bankalama :
    (∀ (ops : List Islem) (f : Tesis), 0 ≤ f.izin_bankasi → 0 ≤ f.net_emisyon →
        0 ≤ (islemlerUygula ops f).izin_bankasi ∧
        0 ≤ (islemlerUygula ops f).net_emisyon) ∧
    (∀ (env : Cevre) (f : Tesis), 0 ≤ f.izin_bankasi → PILOT_BASLANGIC ≤ env.yil →
        (f.emisyon ≤ ucretsizTahsisat env f →
            (tahsisatGuncelle env f).net_emisyon = 0 ∧
            (tahsisatGuncelle env f).izin_bankasi
                = f.izin_bankasi + (ucretsizTahsisat env f - f.emisyon)) ∧
        (ucretsizTahsisat env f < f.emisyon →
            (tahsisatGuncelle env f).izin_bankasi
                = f.izin_bankasi
                    - min (f.emisyon - ucretsizTahsisat env f) f.izin_bankasi ∧
            (tahsisatGuncelle env f).net_emisyon
                = (f.emisyon - ucretsizTahsisat env f)
                    - min (f.emisyon - ucretsizTahsisat env f) f.izin_bankasi)) := by
  constructor
  · intro ops
    induction ops with
    | nil => intro f hb hn; exact ⟨hb, hn⟩
    | cons i rest ih =>
      intro f hb hn
      rw [islemlerUygula]
      cases i with
      | adim env =>
        obtain ⟨hb2, hn2⟩ := tesisStep_koruma env f hb hn
        exact ih _ hb2 hn2
      | denetim d u oran =>
        apply ih
        · rw [islemUygula, mrvDenetim_banka]; exact hb
        · rw [islemUygula, mrvDenetim_net]; exact hn
  · intro env f hb hy
    have hyr : env.yil ≥ PILOT_BASLANGIC := hy
    have huc : ucretsizTahsisat env f
        = f.baslangic_emisyon * (if env.yil < TAM_UYGULAMA then (1:ℚ) else 7/10) := rfl
    constructor
    · intro hs
      unfold tahsisatGuncelle
      rw [if_pos hyr]
      dsimp only
      by_cases hf : f.baslangic_emisyon * (if env.yil < TAM_UYGULAMA then (1:ℚ) else 7/10) - f.emisyon > 0
      · rw [if_pos hf]
        refine ⟨rfl, ?_⟩
        dsimp only
        rw [huc]
      · rw [if_neg hf]
        have heq : f.baslangic_emisyon * (if env.yil < TAM_UYGULAMA then (1:ℚ) else 7/10) - f.emisyon = 0 := by
          rw [huc] at hs
          push_neg at hf
          linarith

        refine ⟨?_, ?_⟩ <;> dsimp only <;> rw [heq, abs_zero, min_eq_left hb]
        · exact sub_zero 0
        · have h0 : ucretsizTahsisat env f - f.emisyon = 0 := by rw [huc]; exact heq
          rw [h0, add_zero, sub_zero]
    · intro hd
      unfold tahsisatGuncelle
      rw [if_pos hyr]
      dsimp only
      have hf : ¬ (f.baslangic_emisyon * (if env.yil < TAM_UYGULAMA then (1:ℚ) else 7/10) - f.emisyon > 0) := by
        rw [huc] at hd
        push_neg
        linarith
      rw [if_neg hf]
      have habs : |f.baslangic_emisyon * (if env.yil < TAM_UYGULAMA then (1:ℚ) else 7/10) - f.emisyon|
          = f.emisyon - ucretsizTahsisat env f := by
        rw [abs_of_nonpos (by push_neg at hf; linarith)]
        rw [huc]
        ring
      exact ⟨by dsimp only; rw [habs], by dsimp only; rw [habs]⟩

/-- Witness for C4: a fresh `Sanayi` facility stepped in year 2030. -/
theorem c4_bankalama_witness :
    (0 ≤ (tesisOrnek Sanayi 1 false).izin_bankasi ∧
     0 ≤ (tesisOrnek Sanayi 1 false).net_emisyon ∧
     PILOT_BASLANGIC ≤ cevreOrnek.yil) ∧
    (0 ≤ (islemlerUygula [Islem.adim cevreOrnek] (tesisOrnek Sanayi 1 false)).izin_bankasi ∧
     0 ≤ (islemlerUygula [Islem.adim cevreOrnek] (tesisOrnek Sanayi 1 false)).net_emisyon) ∧
    (((tesisOrnek Sanayi 1 false).emisyon
          ≤ ucretsizTahsisat cevreOrnek (tesisOrnek Sanayi 1 false) →
        (tahsisatGuncelle cevreOrnek (tesisOrnek Sanayi 1 false)).net_emisyon = 0 ∧
        (tahsisatGuncelle cevreOrnek (tesisOrnek Sanayi 1 false)).izin_bankasi
            = (tesisOrnek Sanayi 1 false).izin_bankasi
                + (ucretsizTahsisat cevreOrnek (tesisOrnek Sanayi 1 false)
                    - (tesisOrnek Sanayi 1 false).emisyon)) ∧
     (ucretsizTahsisat cevreOrnek (tesisOrnek Sanayi 1 false)
          < (tesisOrnek Sanayi 1 false).emisyon →
        (tahsisatGuncelle cevreOrnek (tesisOrnek Sanayi 1 false)).izin_bankasi
            = (tesisOrnek Sanayi 1 false).izin_bankasi
                - min ((tesisOrnek Sanayi 1 false).emisyon
                        - ucretsizTahsisat cevreOrnek (tesisOrnek Sanayi 1 false))
                      (tesisOrnek Sanayi 1 false).izin_bankasi ∧
        (tahsisatGuncelle cevreOrnek (tesisOrnek Sanayi 1 false)).net_emisyon
            = ((tesisOrnek Sanayi 1 false).emisyon
                    - ucretsizTahsisat cevreOrnek (tesisOrnek Sanayi 1 false))
                - min ((tesisOrnek Sanayi 1 false).emisyon
                        - ucretsizTahsisat cevreOrnek (tesisOrnek Sanayi 1 false))
                      (tesisOrnek Sanayi 1 false).izin_bankasi)) := by
  have h1 : 0 ≤ (tesisOrnek Sanayi 1 false).izin_bankasi := le_refl 0
  have h2 : 0 ≤ (tesisOrnek Sanayi 1 false).net_emisyon := le_refl 0
  have h3 : PILOT_BASLANGIC ≤ cevreOrnek.yil := by decide
  exact ⟨⟨h1, h2, h3⟩, c4_bankalama.1 [Islem.adim cevreOrnek] _ h1 h2,
    c4_bankalama.2 cevreOrnek (tesisOrnek Sanayi 1 false) h1 h3⟩

/-- A closed facility is a fixed point of its own step (lines 263-264). -/
theorem tesisStep_kapali (env : Cevre) (f : Tesis) (h : f.durum = .Kapali) :
    tesisStep env f = f := by
  unfold tesisStep
  rw [if_pos h]

/-- A closed facility is skipped by the audit (line 499). -/
theorem mrvDenetim_kapali (d u : Bool) (oran : ℚ) (f : Tesis) (h : f.durum = .Kapali) :
    mrvDenetim d u oran f = f := by
  unfold mrvDenetim
  rw [if_neg]
  rintro ⟨hne, -, -⟩
  exact hne h

/-- C5: a facility in `Kapali` status is left completely unchanged by any
sequence of facility steps and audit visits (so it never re-activates and
its emission never changes); the exporter step also returns it unchanged
before computing anything; and the step that moves a facility into
`Kapali` sets its emission to 0. -/
theorem c5_kapali_terminal :
    (∀ (ops : List Islem) (f : Tesis), f.durum = .Kapali → islemlerUygula ops f = f) ∧
    (∀ (env : Cevre) (a : IhracatciTesis), a.tesis.durum = .Kapali →
        ihracatciStep env a = a) ∧
    (∀ (env : Cevre) (f : Tesis), f.durum ≠ .Kapali →
        (tesisStep env f).durum = .Kapali → (tesisStep env f).emisyon = 0) := by
  refine ⟨?_, ?_, ?_⟩
  · intro ops
    induction ops with
    | nil => intro f h; rfl
    | cons i rest ih =>
      intro f h
      rw [islemlerUygula]
      cases i with
      | adim env => rw [islemUygula, tesisStep_kapali env f h]; exact ih f h
      | denetim d u oran => rw [islemUygula, mrvDenetim_kapali d u oran f h]; exact ih f h
  · intro env a h
    unfold ihracatciStep
    rw [if_pos h]
  · intro env f hne hk
    unfold tesisStep at hk ⊢
    rw [if_neg hne] at hk ⊢
    dsimp only at hk ⊢
    split_ifs at hk ⊢ with h1 h2 h3
    · have hd : (tahsisatGuncelle env f).durum = Durum.Kapali := hk
      rw [tahsisat_durum] at hd
      exact absurd hd hne
    · revert hk
      split <;> intro hk
      · rw [yatirimBaslat_durum] at hk
        exact absurd hk (by simp)
      · rfl
      · have hd : (tahsisatGuncelle env f).durum = Durum.Kapali := hk
        rw [tahsisat_durum] at hd
        exact absurd hd hne
    · have hd : (tahsisatGuncelle env f).durum = Durum.Kapali := hk
      rw [tahsisat_durum] at hd
      exact absurd hd hne

/-- Witness for C5 at a concrete closed facility and exporter. -/
theorem c5_kapali_terminal_witness :
    kapaliOrnek.durum = .Kapali ∧
    islemlerUygula [Islem.adim cevreOrnek, Islem.denetim true true (1/10)] kapaliOrnek
        = kapaliOrnek ∧
    ihracatciStep cevreOrnek kapaliIhracatciOrnek = kapaliIhracatciOrnek := by
  have h : kapaliOrnek.durum = .Kapali := rfl
  exact ⟨h, c5_kapali_terminal.1 _ kapaliOrnek h, c5_kapali_terminal.2.1 cevreOrnek _ h⟩

/-- The reconciliation leaves the investment countdown alone, so the
step's penalty flag follows the countdown of the facility's own state. -/
theorem tesisStep_ceza (env : Cevre) (f : Tesis) :
    (tesisStep env f).ceza_durumu =
      if f.durum ≠ .Kapali ∧ f.kalan_yatirim_suresi = 1 then false
      else f.ceza_durumu := by
  by_cases h0 : f.durum = .Kapali
  · rw [tesisStep_kapali env f h0, if_neg (fun hcon => hcon.1 h0)]
  · unfold tesisStep
    rw [if_neg h0]
    dsimp only
    have hkal := tahsisat_kalan env f
    by_cases h1 : (tahsisatGuncelle env f).kalan_yatirim_suresi > 0
    · rw [if_pos h1]
      by_cases h2 : (tahsisatGuncelle env f).kalan_yatirim_suresi - 1 = 0
      · rw [if_pos h2, if_pos ⟨h0, by omega⟩]
      · rw [if_neg h2, if_neg (show ¬(f.durum ≠ Durum.Kapali ∧
            f.kalan_yatirim_suresi = 1) by rintro ⟨-, hk1⟩; omega)]
        exact tahsisat_ceza env f
    · rw [if_neg h1, if_neg (show ¬(f.durum ≠ Durum.Kapali ∧
          f.kalan_yatirim_suresi = 1) by rintro ⟨-, hk1⟩; omega)]
      by_cases h3 : (tahsisatGuncelle env f).durum = .Aktif
      · rw [if_pos h3]
        rcases hkv : kararVer env (tahsisatGuncelle env f) (efektifFiyat env f)
          with k | _ | _ <;> dsimp only
        · rw [yatirimBaslat_ceza]
          exact tahsisat_ceza env f
        · exact tahsisat_ceza env f
        · exact tahsisat_ceza env f
      · rw [if_neg h3]
        exact tahsisat_ceza env f

/-- Completing the last year of an investment: the facility becomes
`Temiz` with no remaining duration and a cleared penalty flag
(lines 299-305). -/
theorem tesisStep_tamamlama (env : Cevre) (f : Tesis)
    (h0 : f.durum ≠ .Kapali) (hk : f.kalan_yatirim_suresi = 1) :
    (tesisStep env f).durum = .Temiz ∧
    (tesisStep env f).kalan_yatirim_suresi = 0 ∧
    (tesisStep env f).ceza_durumu = false := by
  have hkal := tahsisat_kalan env f
  unfold tesisStep
  rw [if_neg h0]
  dsimp only
  rw [if_pos (by omega : (tahsisatGuncelle env f).kalan_yatirim_suresi > 0)]
  rw [if_pos (by omega : (tahsisatGuncelle env f).kalan_yatirim_suresi - 1 = 0)]
  refine ⟨rfl, ?_, rfl⟩
  dsimp only
  omega

/-- C8: for a non-subsidy facility an active penalty flag forces the
investment decision, whatever the price and the catalog (the MAC/NPV scan
is bypassed and no measure is recorded); and within the facility's own
step the flag is cleared exactly when a running investment completes (the
remaining duration reaches 0 and the status becomes `Temiz`), and is
never raised by the facility's own step. -/
theorem c8_ceza_mekanizmasi :
    (∀ (env : Cevre) (f : Tesis) (ef : ℚ), f.duyarlilik ≠ "Tesvik" →
        f.ceza_durumu = true → kararVer env f ef = .yatirim none) ∧
    (∀ (env : Cevre) (f : Tesis), f.ceza_durumu = true →
        (((tesisStep env f).ceza_durumu = false) ↔
            (f.durum ≠ .Kapali ∧ f.kalan_yatirim_suresi = 1)) ∧
        ((tesisStep env f).ceza_durumu = false →
            (tesisStep env f).durum = .Temiz ∧
            (tesisStep env f).kalan_yatirim_suresi = 0)) ∧
    (∀ (env : Cevre) (f : Tesis), f.ceza_durumu = false →
        (tesisStep env f).ceza_durumu = false) := by
  refine ⟨?_, ?_, ?_⟩
  · intro env f ef hd hc
    unfold kararVer
    rw [if_neg hd, if_pos hc]
  · intro env f hc
    have hiff : ((tesisStep env f).ceza_durumu = false) ↔
        (f.durum ≠ .Kapali ∧ f.kalan_yatirim_suresi = 1) := by
      rw [tesisStep_ceza]
      constructor
      · intro hz
        by_cases hcon : f.durum ≠ .Kapali ∧ f.kalan_yatirim_suresi = 1
        · exact hcon
        · rw [if_neg hcon, hc] at hz
          exact absurd hz (by simp)
      · intro hcon
        rw [if_pos hcon]
    refine ⟨hiff, ?_⟩
    intro hz
    obtain ⟨h0, hk⟩ := hiff.mp hz
    obtain ⟨hd, hkal, -⟩ := tesisStep_tamamlama env f h0 hk
    exact ⟨hd, hkal⟩
  · intro env f hc
    rw [tesisStep_ceza]
    split_ifs with h
    · rfl
    · exact hc

/-- Witness for C8: the forced decision of a penalized `Sanayi` facility
and the flag clearing of a penalized facility finishing its investment. -/
theorem c8_ceza_mekanizmasi_witness :
    (cezaliOrnek.duyarlilik ≠ "Tesvik" ∧ cezaliOrnek.ceza_durumu = true ∧
     cezaliDonusumOrnek.ceza_durumu = true ∧
     (tesisOrnek Sanayi 1 false).ceza_durumu = false) ∧
    kararVer cevreOrnek cezaliOrnek 150 = .yatirim none ∧
    (((tesisStep cevreOrnek cezaliDonusumOrnek).ceza_durumu = false) ↔
        (cezaliDonusumOrnek.durum ≠ .Kapali ∧
         cezaliDonusumOrnek.kalan_yatirim_suresi = 1)) ∧
    (tesisStep cevreOrnek (tesisOrnek Sanayi 1 false)).ceza_durumu = false := by
  have h1 : cezaliOrnek.duyarlilik ≠ "Tesvik" := by decide
  have h2 : cezaliOrnek.ceza_durumu = true := rfl
  have h3 : cezaliDonusumOrnek.ceza_durumu = true := rfl
  have h4 : (tesisOrnek Sanayi 1 false).ceza_durumu = false := rfl
  exact ⟨⟨h1, h2, h3, h4⟩, c8_ceza_mekanizmasi.1 cevreOrnek cezaliOrnek 150 h1 h2,
    (c8_ceza_mekanizmasi.2.1 cevreOrnek cezaliDonusumOrnek h3).1,
    c8_ceza_mekanizmasi.2.2 cevreOrnek (tesisOrnek Sanayi 1 false) h4⟩

/-- A subsidy-class facility that is not closed stays not closed through
its own step: the subsidy branch of the decision never returns closure. -/
theorem tesisStep_tesvik_durum (env : Cevre) (f : Tesis)
    (hd : f.duyarlilik = "Tesvik") (h0 : f.durum ≠ .Kapali) :
    (tesisStep env f).durum ≠ .Kapali := by
  intro hk
  unfold tesisStep at hk
  rw [if_neg h0] at hk
  dsimp only at hk
  split_ifs at hk with h1 h2 h3
  · have hdm : (tahsisatGuncelle env f).durum = Durum.Kapali := hk
    rw [tahsisat_durum] at hdm
    exact h0 hdm
  · rcases hkv : kararVer env (tahsisatGuncelle env f) (efektifFiyat env f)
      with k | _ | _ <;> rw [hkv] at hk <;> dsimp only at hk
    · rw [yatirimBaslat_durum] at hk
      exact absurd hk (by simp)
    · have hd1 : (tahsisatGuncelle env f).duyarlilik = "Tesvik" := by
        rw [tahsisat_duyarlilik]; exact hd
      unfold kararVer at hkv
      rw [if_pos hd1] at hkv
      split_ifs at hkv
    · rw [tahsisat_durum] at hk
      exact h0 hk
  · have hdm : (tahsisatGuncelle env f).durum = Durum.Kapali := hk
    rw [tahsisat_durum] at hdm
    exact h0 hdm

/-- C10: the decision of a subsidy-class facility is never closure, and a
subsidy-class facility that is not closed never reaches `Kapali` under
any sequence of facility steps and audit visits. -/
theorem c10_tesvik_kapanmaz :
    (∀ (env : Cevre) (f : Tesis) (ef : ℚ), f.duyarlilik = "Tesvik" →
        kararVer env f ef ≠ .kapat) ∧
    (∀ (ops : List Islem) (f : Tesis), f.duyarlilik = "Tesvik" →
        f.durum ≠ .Kapali → (islemlerUygula ops f).durum ≠ .Kapali) := by
  constructor
  · intro env f ef hd h
    unfold kararVer at h
    rw [if_pos hd] at h
    split_ifs at h
  · intro ops
    induction ops with
    | nil => intro f hd h0; exact h0
    | cons i rest ih =>
      intro f hd h0
      rw [islemlerUygula]
      cases i with
      | adim env =>
        apply ih
        · rw [islemUygula, tesisStep_duyarlilik]; exact hd
        · rw [islemUygula]; exact tesisStep_tesvik_durum env f hd h0
      | denetim d u oran =>
        apply ih
        · rw [islemUygula, mrvDenetim_duyarlilik]; exact hd
        · rw [islemUygula, mrvDenetim_durum]; exact h0

/-- Witness for C10: the subsidy-class counterexample facility of the
closure claim stays open through a step and an audit. -/
theorem c10_tesvik_kapanmaz_witness :
    (tesisC1.duyarlilik = "Tesvik" ∧ tesisC1.durum ≠ .Kapali) ∧
    kararVer cevreOrnek tesisC1 150 ≠ .kapat ∧
    (islemlerUygula [Islem.adim cevreOrnek, Islem.denetim true true (1/10)]
        tesisC1).durum ≠ .Kapali := by
  have h1 : tesisC1.duyarlilik = "Tesvik" := rfl
  have h2 : tesisC1.durum ≠ .Kapali := by decide
  exact ⟨⟨h1, h2⟩, c10_tesvik_kapanmaz.1 cevreOrnek tesisC1 150 h1,
    c10_tesvik_kapanmaz.2 _ tesisC1 h1 h2⟩

/-- Counterexample to C1 as stated: an Active subsidy-class facility
whose net uncovered-emission cost (10 Mt at 150 $/ton, i.e. 1500 M$)
far exceeds its 999 M$ shutdown threshold, yet its step leaves it Active,
because the subsidy branch of the decision returns before the closure
check. -/
theorem c1_kapanma_cx :
    tesisC1.durum = .Aktif ∧
    (tahsisatGuncelle cevreOrnek tesisC1).net_emisyon * efektifFiyat cevreOrnek tesisC1
        > tesisC1.maliyet_limit ∧
    (tesisStep cevreOrnek tesisC1).durum = .Aktif := by
  refine ⟨rfl, ?_, ?_⟩
  · norm_num [tahsisatGuncelle, efektifFiyat, tesisC1, tesisOrnek, Tarim, cevreOrnek,
      PILOT_BASLANGIC, TAM_UYGULAMA, min_def, abs]
  · norm_num [tesisStep, tahsisatGuncelle, kararVer, efektifFiyat, tesisC1, tesisOrnek,
      Tarim, cevreOrnek, PILOT_BASLANGIC, TAM_UYGULAMA, min_def, abs]
    decide

/-- C1 amended: an Active facility with no running investment, whose
sensitivity class is not the subsidy class, which carries no penalty
flag, and for which the best NPV over the catalog is not positive, closes
(with emission set to 0) whenever its net uncovered-emission cost after
the tick's reconciliation exceeds its (nonnegative) shutdown threshold at
a nonnegative effective price; the earlier decision branches (subsidy,
penalty, positive NPV) otherwise take priority over closure. -/
theorem c1_kapanma_amended (env : Cevre) (f : Tesis)
    (hA : f.durum = .Aktif) (hk : f.kalan_yatirim_suresi = 0)
    (hd : f.duyarlilik ≠ "Tesvik") (hc : f.ceza_durumu = false)
    (hnpv : (enIyiSec (efektifFiyat env f) f.emisyon f.mac_onlemler (-9999, none)).1 ≤ 0)
    (hlim : 0 ≤ f.maliyet_limit) (hef : 0 ≤ efektifFiyat env f)
    (hcost : (tahsisatGuncelle env f).net_emisyon * efektifFiyat env f > f.maliyet_limit) :
    (tesisStep env f).durum = .Kapali ∧ (tesisStep env f).emisyon = 0 := by
  have hnet : 0 < (tahsisatGuncelle env f).net_emisyon := by
    by_contra hn
    push_neg at hn
    have hmul : (tahsisatGuncelle env f).net_emisyon * efektifFiyat env f ≤ 0 :=
      mul_nonpos_of_nonpos_of_nonneg hn hef
    linarith
  have hd1 : (tahsisatGuncelle env f).duyarlilik ≠ "Tesvik" := by
    rw [tahsisat_duyarlilik]; exact hd
  have hc1 : ¬ ((tahsisatGuncelle env f).ceza_durumu = true) := by
    rw [tahsisat_ceza, hc]; simp
  have hkarar : kararVer env (tahsisatGuncelle env f) (efektifFiyat env f) = .kapat := by
    unfold kararVer
    rw [if_neg hd1, if_neg hc1]
    dsimp only
    rw [tahsisat_emisyon, tahsisat_onlemler]
    rw [if_neg (not_lt.mpr hnpv)]
    rw [if_pos]
    refine ⟨hnet, ?_⟩
    rw [tahsisat_limit]
    exact hcost
  have hne : f.durum ≠ .Kapali := by rw [hA]; simp
  unfold tesisStep
  rw [if_neg hne]
  dsimp only
  rw [if_neg (by rw [tahsisat_kalan, hk]; simp)]
  rw [if_pos (by rw [tahsisat_durum]; exact hA)]
  rw [hkarar]
  exact ⟨rfl, rfl⟩

/-- Witness for the amended C1: a tax-class facility whose only catalog
measure is priced above the carbon price closes. -/
theorem c1_kapanma_amended_witness :
    (tesisC1b.durum = .Aktif ∧ tesisC1b.kalan_yatirim_suresi = 0 ∧
     tesisC1b.duyarlilik ≠ "Tesvik" ∧ tesisC1b.ceza_durumu = false ∧
     (enIyiSec (efektifFiyat cevreFiyat100 tesisC1b) tesisC1b.emisyon
         tesisC1b.mac_onlemler (-9999, none)).1 ≤ 0 ∧
     0 ≤ tesisC1b.maliyet_limit ∧ 0 ≤ efektifFiyat cevreFiyat100 tesisC1b ∧
     (tahsisatGuncelle cevreFiyat100 tesisC1b).net_emisyon
         * efektifFiyat cevreFiyat100 tesisC1b > tesisC1b.maliyet_limit) ∧
    ((tesisStep cevreFiyat100 tesisC1b).durum = .Kapali ∧
     (tesisStep cevreFiyat100 tesisC1b).emisyon = 0) := by
  have hA : tesisC1b.durum = .Aktif := rfl
  have hk : tesisC1b.kalan_yatirim_suresi = 0 := rfl
  have hd : tesisC1b.duyarlilik ≠ "Tesvik" := by decide
  have hc : tesisC1b.ceza_durumu = false := rfl
  have hnpv : (enIyiSec (efektifFiyat cevreFiyat100 tesisC1b) tesisC1b.emisyon
      tesisC1b.mac_onlemler (-9999, none)).1 ≤ 0 := by
    norm_num [enIyiSec, efektifFiyat, tesisC1b, tesisOrnek, Enerji, cevreFiyat100]
  have hlim : 0 ≤ tesisC1b.maliyet_limit := by
    norm_num [tesisC1b, tesisOrnek, Enerji]
  have hef : 0 ≤ efektifFiyat cevreFiyat100 tesisC1b := by
    norm_num [efektifFiyat, tesisC1b, tesisOrnek, Enerji, cevreFiyat100]
  have hcost : (tahsisatGuncelle cevreFiyat100 tesisC1b).net_emisyon
      * efektifFiyat cevreFiyat100 tesisC1b > tesisC1b.maliyet_limit := by
    norm_num [tahsisatGuncelle, efektifFiyat, tesisC1b, tesisOrnek, Enerji, cevreFiyat100,
      PILOT_BASLANGIC, TAM_UYGULAMA, min_def, abs]
  exact ⟨⟨hA, hk, hd, hc, hnpv, hlim, hef, hcost⟩,
    c1_kapanma_amended cevreFiyat100 tesisC1b hA hk hd hc hnpv hlim hef hcost⟩

/-- Counterexample to C7 as stated: a low-income household (elasticity
-0.6, positive consumption) has exactly the same emission at carbon
price 100 and at carbon price 150, because the 0.5 multiplier floor is
binding at both prices — the emission is not strictly decreasing in the
price. -/
theorem c7_hane_cx :
    cevreFiyat100.karbon_fiyati < cevreOrnek.karbon_fiyati ∧
    0 < cevreFiyat100.karbon_fiyati ∧
    haneC7.elastikiyet < 0 ∧ 0 < haneC7.tuketim ∧
    (haneStep cevreOrnek haneC7).emisyon = (haneStep cevreFiyat100 haneC7).emisyon := by
  refine ⟨by norm_num [cevreFiyat100, cevreOrnek], by norm_num [cevreFiyat100],
    by norm_num [haneC7], by norm_num [haneC7], ?_⟩
  norm_num [haneStep, haneC7, cevreOrnek, cevreFiyat100, EMISYON_FAKTORU_TR, max_def]

/-- C7 amended: at a positive carbon price `p` the household emission is
`(consumption/1000) * gridFactor * max(0.5, 1 + elasticity * p/100)`; as
a function of the price it is non-increasing, strictly decreasing as long
as the 0.5 floor is not binding at the smaller price (and consumption is
positive), and always at least 50 percent of the no-carbon-price
baseline. -/
theorem c7_hane_amended (h : Hane) (c1 c2 : Cevre)
    (hdur : h.durum = "Aktif") (hel : h.elastikiyet < 0) (ht : 0 ≤ h.tuketim)
    (hp1 : 0 < c1.karbon_fiyati) (hp12 : c1.karbon_fiyati < c2.karbon_fiyati) :
    ((haneStep c1 h).emisyon
        = h.tuketim / 1000 * EMISYON_FAKTORU_TR
            * max (1/2) (1 + h.elastikiyet * (c1.karbon_fiyati / 100))) ∧
    (haneStep c2 h).emisyon ≤ (haneStep c1 h).emisyon ∧
    ((1:ℚ)/2 < 1 + h.elastikiyet * (c1.karbon_fiyati / 100) → 0 < h.tuketim →
        (haneStep c2 h).emisyon < (haneStep c1 h).emisyon) ∧
    1/2 * haneBazEmisyon h ≤ (haneStep c1 h).emisyon := by
  have hp2 : 0 < c2.karbon_fiyati := lt_trans hp1 hp12
  have hf : ∀ c : Cevre, 0 < c.karbon_fiyati →
      (haneStep c h).emisyon
        = h.tuketim / 1000 * EMISYON_FAKTORU_TR
            * max (1/2) (1 + h.elastikiyet * (c.karbon_fiyati / 100)) := by
    intro c hp
    unfold haneStep
    rw [if_neg (by simp [hdur]), if_pos hp]
  have hbaz : 0 ≤ h.tuketim / 1000 * EMISYON_FAKTORU_TR := by
    have h1 : 0 ≤ h.tuketim / 1000 := by positivity
    have h2 : (0:ℚ) ≤ EMISYON_FAKTORU_TR := by norm_num [EMISYON_FAKTORU_TR]
    exact mul_nonneg h1 h2
  have hmul : h.elastikiyet * (c2.karbon_fiyati / 100)
      ≤ h.elastikiyet * (c1.karbon_fiyati / 100) := by
    have hdivle : c1.karbon_fiyati / 100 ≤ c2.karbon_fiyati / 100 := by linarith
    exact mul_le_mul_of_nonpos_left hdivle (le_of_lt hel)
  have hmstrict : h.elastikiyet * (c2.karbon_fiyati / 100)
      < h.elastikiyet * (c1.karbon_fiyati / 100) := by
    have hdivlt : c1.karbon_fiyati / 100 < c2.karbon_fiyati / 100 := by linarith
    exact mul_lt_mul_of_neg_left hdivlt hel
  refine ⟨hf c1 hp1, ?_, ?_, ?_⟩
  · rw [hf c1 hp1, hf c2 hp2]
    apply mul_le_mul_of_nonneg_left _ hbaz
    exact max_le_max (le_refl _) (by linarith)
  · intro hfloor htpos
    rw [hf c1 hp1, hf c2 hp2]
    have hbazpos : 0 < h.tuketim / 1000 * EMISYON_FAKTORU_TR := by
      have h1 : 0 < h.tuketim / 1000 := by positivity
      have h2 : (0:ℚ) < EMISYON_FAKTORU_TR := by norm_num [EMISYON_FAKTORU_TR]
      exact mul_pos h1 h2
    apply mul_lt_mul_of_pos_left _ hbazpos
    rw [max_eq_right (le_of_lt hfloor)]
    exact max_lt hfloor (by linarith)
  · rw [hf c1 hp1]
    unfold haneBazEmisyon
    rw [mul_comm (1/2 : ℚ) _]
    exact mul_le_mul_of_nonneg_left (le_max_left _ _) hbaz

/-- Witness for the amended C7: the low-income household between the
floor price and 100 $/ton, where the response is strictly decreasing. -/
theorem c7_hane_amended_witness :
    (haneC7.durum = "Aktif" ∧ haneC7.elastikiyet < 0 ∧ 0 ≤ haneC7.tuketim ∧
     0 < cevreFiyat20.karbon_fiyati ∧
     cevreFiyat20.karbon_fiyati < cevreFiyat100.karbon_fiyati) ∧
    (((haneStep cevreFiyat20 haneC7).emisyon
        = haneC7.tuketim / 1000 * EMISYON_FAKTORU_TR
            * max (1/2) (1 + haneC7.elastikiyet * (cevreFiyat20.karbon_fiyati / 100))) ∧
     (haneStep cevreFiyat100 haneC7).emisyon ≤ (haneStep cevreFiyat20 haneC7).emisyon ∧
     ((1:ℚ)/2 < 1 + haneC7.elastikiyet * (cevreFiyat20.karbon_fiyati / 100) →
        0 < haneC7.tuketim →
        (haneStep cevreFiyat100 haneC7).emisyon < (haneStep cevreFiyat20 haneC7).emisyon) ∧
     1/2 * haneBazEmisyon haneC7 ≤ (haneStep cevreFiyat20 haneC7).emisyon) := by
  have h1 : haneC7.durum = "Aktif" := rfl
  have h2 : haneC7.elastikiyet < 0 := by norm_num [haneC7]
  have h3 : 0 ≤ haneC7.tuketim := by norm_num [haneC7]
  have h4 : 0 < cevreFiyat20.karbon_fiyati := by norm_num [cevreFiyat20]
  have h5 : cevreFiyat20.karbon_fiyati < cevreFiyat100.karbon_fiyati := by
    norm_num [cevreFiyat20, cevreFiyat100]
  exact ⟨⟨h1, h2, h3, h4, h5⟩, c7_hane_amended haneC7 cevreFiyat20 cevreFiyat100 h1 h2 h3 h4 h5⟩

/-- C9: the simulation is deterministic given an explicit seed — two runs
with the same generator, configuration, seed and tick count produce the
same collected time series (every column at every tick), whatever the
wall clock reads; the clock enters the model only through the seed
fallback of `tohumSec` when no explicit seed is supplied. -/
theorem c9_determinizm {σ : Type} (R : Uretec σ) (rt : ℚ → ℚ) (cfg : Yapilandirma)
    (tohum : ℕ) (saat1 saat2 : ℕ) (n : ℕ) :
    calistir R rt cfg (some tohum) saat1 n = calistir R rt cfg (some tohum) saat2 n := rfl

/-- The discounted-savings sum is linear in the savings. -/
theorem npvToplam_olcek (c s : ℚ) (n : ℕ) :
    npvToplam (c * s) n = c * npvToplam s n := by
  induction n with
  | zero => rw [npvToplam, npvToplam, mul_zero]
  | succ n ih =>
    rw [npvToplam, npvToplam, ih]
    ring

/-- The source NPV (in dollars, with the Mt-to-ton factor) is exactly
`1e6` times the spec's NPV (in million dollars). -/
theorem npvHesap_olcek (ef em : ℚ) (o : Onlem) :
    npvHesap ef em o = 1000000 * onlemNpv ef em o := by
  unfold npvHesap onlemNpv
  dsimp only
  have h1 : em * o.potansiyel * ef * 1000000 = 1000000 * (o.potansiyel * em * ef) := by ring
  rw [h1, npvToplam_olcek]
  by_cases hm : o.mac > 0
  · rw [if_pos hm, if_pos hm]
    ring
  · rw [if_neg hm, if_neg hm]
    ring

/-- An eligible head measure stays at the head of the filtered catalog. -/
theorem uygun_cons_uygun (ef : ℚ) (p : String × Onlem) (l : List (String × Onlem))
    (h : p.2.mac < ef) :
    uygunOnlemler ef (p :: l) = p :: uygunOnlemler ef l := by
  simp [uygunOnlemler, List.filter_cons, h]

/-- An ineligible head measure is dropped by the filter. -/
theorem uygun_cons_atla (ef : ℚ) (p : String × Onlem) (l : List (String × Onlem))
    (h : ¬ p.2.mac < ef) :
    uygunOnlemler ef (p :: l) = uygunOnlemler ef l := by
  simp [uygunOnlemler, List.filter_cons, h]

/-- Skipping measures priced at or above the carbon price inside the scan
is the same as scanning the filtered catalog: the loop considers exactly
the measures whose MAC is strictly below the price. -/
theorem enIyiSec_filtre (ef em : ℚ) :
    ∀ (l : List (String × Onlem)) (acc : ℚ × Option (String × Onlem)),
      enIyiSec ef em l acc = enIyiSec ef em (uygunOnlemler ef l) acc := by
  intro l
  induction l with
  | nil => intro acc; rfl
  | cons p rest ih =>
    intro acc
    by_cases hm : p.2.mac ≥ ef
    · rw [enIyiSec, if_pos hm, ih, uygun_cons_atla ef p rest (not_lt.mpr hm)]
    · have hlt : p.2.mac < ef := not_le.mp hm
      rw [uygun_cons_uygun ef p rest hlt]
      rw [enIyiSec, if_neg hm, enIyiSec, if_neg hm]
      dsimp only
      split_ifs <;> rw [ih]

/-- If no eligible measure beats the running best, the scan returns the
accumulator unchanged. -/
theorem enIyiSec_sabit (ef em : ℚ) :
    ∀ (l : List (String × Onlem)) (b : ℚ) (o : Option (String × Onlem)),
      (∀ p ∈ uygunOnlemler ef l, npvHesap ef em p.2 ≤ b) →
      enIyiSec ef em l (b, o) = (b, o) := by
  intro l
  induction l with
  | nil => intro b o _; rfl
  | cons p rest ih =>
    intro b o hle
    by_cases hm : p.2.mac ≥ ef
    · rw [enIyiSec, if_pos hm]
      apply ih
      intro q hq
      apply hle
      rw [uygun_cons_atla ef p rest (not_lt.mpr hm)]
      exact hq
    · have hlt : p.2.mac < ef := not_le.mp hm
      have hp : p ∈ uygunOnlemler ef (p :: rest) := by
        rw [uygun_cons_uygun ef p rest hlt]
        exact List.mem_cons_self p _
      rw [enIyiSec, if_neg hm]
      dsimp only
      rw [if_neg (not_lt.mpr (hle p hp))]
      apply ih
      intro q hq
      apply hle
      rw [uygun_cons_uygun ef p rest hlt]
      exact List.mem_cons_of_mem p hq

/-- The scan's best value is either the initial accumulator or the NPV of
some eligible measure. -/
theorem enIyiSec_sonuc (ef em : ℚ) :
    ∀ (l : List (String × Onlem)) (b : ℚ) (o : Option (String × Onlem)),
      (enIyiSec ef em l (b, o)).1 = b ∨
      ∃ p ∈ uygunOnlemler ef l, (enIyiSec ef em l (b, o)).1 = npvHesap ef em p.2 := by
  intro l
  induction l with
  | nil => intro b o; exact Or.inl rfl
  | cons p rest ih =>
    intro b o
    by_cases hm : p.2.mac ≥ ef
    · rw [enIyiSec, if_pos hm, uygun_cons_atla ef p rest (not_lt.mpr hm)]
      exact ih b o
    · have hlt : p.2.mac < ef := not_le.mp hm
      rw [enIyiSec, if_neg hm, uygun_cons_uygun ef p rest hlt]
      dsimp only
      split_ifs with hgt
      · rcases ih (npvHesap ef em p.2) (some p) with h | ⟨q, hq, h⟩
        · exact Or.inr ⟨p, List.mem_cons_self p _, h⟩
        · exact Or.inr ⟨q, List.mem_cons_of_mem p hq, h⟩
      · rcases ih b o with h | ⟨q, hq, h⟩
        · exact Or.inl h
        · exact Or.inr ⟨q, List.mem_cons_of_mem p hq, h⟩

/-- When some eligible measure beats the initial best, the scan returns
the first-seen strict maximizer of the NPV over the eligible catalog:
strictly above every earlier eligible measure, at least every later
one. -/
theorem enIyiSec_doruk (ef em : ℚ) :
    ∀ (l : List (String × Onlem)) (b : ℚ) (o : Option (String × Onlem)),
      (∃ p ∈ uygunOnlemler ef l, b < npvHesap ef em p.2) →
      ∃ k l1 l2, uygunOnlemler ef l = l1 ++ k :: l2 ∧
        b < npvHesap ef em k.2 ∧
        (∀ q ∈ l1, npvHesap ef em q.2 < npvHesap ef em k.2) ∧
        (∀ q ∈ l2, npvHesap ef em q.2 ≤ npvHesap ef em k.2) ∧
        enIyiSec ef em l (b, o) = (npvHesap ef em k.2, some k) := by
  intro l
  induction l with
  | nil => intro b o h; simp [uygunOnlemler] at h
  | cons p rest ih =>
    intro b o hex
    by_cases hm : p.2.mac ≥ ef
    · rw [uygun_cons_atla ef p rest (not_lt.mpr hm)] at hex ⊢
      rw [enIyiSec, if_pos hm]
      exact ih b o hex
    · have hlt : p.2.mac < ef := not_le.mp hm
      rw [uygun_cons_uygun ef p rest hlt] at hex ⊢
      rw [enIyiSec, if_neg hm]
      dsimp only
      split_ifs with hgt
      · by_cases hex2 : ∃ q ∈ uygunOnlemler ef rest,
            npvHesap ef em p.2 < npvHesap ef em q.2
        · obtain ⟨k, l1, l2, hdec, hk, hl1, hl2, heq⟩ :=
            ih (npvHesap ef em p.2) (some p) hex2
          refine ⟨k, p :: l1, l2, by rw [hdec, List.cons_append], lt_trans hgt hk, ?_, hl2, heq⟩
          intro q hq
          rcases List.mem_cons.mp hq with hq | hq
          · rw [hq]; exact hk
          · exact hl1 q hq
        · push_neg at hex2
          rw [enIyiSec_sabit ef em rest (npvHesap ef em p.2) (some p) hex2]
          exact ⟨p, [], uygunOnlemler ef rest, rfl, hgt, by simp, hex2, rfl⟩
      · have hex3 : ∃ q ∈ uygunOnlemler ef rest, b < npvHesap ef em q.2 := by
          obtain ⟨q, hq, hbq⟩ := hex
          rcases List.mem_cons.mp hq with hq | hq
          · exact absurd (hq ▸ hbq) hgt
          · exact ⟨q, hq, hbq⟩
        obtain ⟨k, l1, l2, hdec, hk, hl1, hl2, heq⟩ := ih b o hex3
        refine ⟨k, p :: l1, l2, by rw [hdec, List.cons_append], hk, ?_, hl2, heq⟩
        intro q hq
        rcases List.mem_cons.mp hq with hq | hq
        · rw [hq]
          exact (not_lt.mp hgt).trans_lt hk
        · exact hl1 q hq

/-- C6: for an Active, non-subsidy, non-penalized facility at effective
price `ef`, the decision procedure computes for every measure the NPV of
the spec's formula (scaled by the `1e6` Mt-to-ton unit factor), considers
exactly the catalog measures with MAC strictly below `ef`, invests iff
some considered measure has positive NPV, selects the first-seen strict
maximizer of the NPV, and starts the investment with exactly that
measure. -/
theorem c6_karar_mekanizmasi (env : Cevre) (f : Tesis) (ef : ℚ)
    (hd : f.duyarlilik ≠ "Tesvik") (hc : f.ceza_durumu = false) :
    KararIddiasi env f ef := by
  have hcb : ¬ (f.ceza_durumu = true) := by rw [hc]; simp
  have hkv : kararVer env f ef =
      (if (enIyiSec ef f.emisyon f.mac_onlemler (-9999, none)).1 > 0 then
        Karar.yatirim (enIyiSec ef f.emisyon f.mac_onlemler (-9999, none)).2
      else if f.net_emisyon > 0 ∧ f.net_emisyon * ef > f.maliyet_limit then Karar.kapat
      else Karar.bekle) := by
    unfold kararVer
    rw [if_neg hd, if_neg hcb]
  refine ⟨fun o => npvHesap_olcek ef f.emisyon o,
    fun acc => enIyiSec_filtre ef f.emisyon f.mac_onlemler acc, ?_, ?_⟩
  · constructor
    · rintro ⟨p, hp, hpos⟩
      have hnp : 0 < npvHesap ef f.emisyon p.2 := by
        rw [npvHesap_olcek]
        nlinarith
      obtain ⟨k, l1, l2, hdec, hk, hl1, hl2, heq⟩ :=
        enIyiSec_doruk ef f.emisyon f.mac_onlemler (-9999) none
          ⟨p, hp, by linarith⟩
      have hple : npvHesap ef f.emisyon p.2 ≤ npvHesap ef f.emisyon k.2 := by
        rw [hdec] at hp
        rcases List.mem_append.mp hp with h | h
        · exact le_of_lt (hl1 p h)
        · rcases List.mem_cons.mp h with h | h
          · rw [h]
          · exact hl2 p h
      have hkpos : (enIyiSec ef f.emisyon f.mac_onlemler (-9999, none)).1 > 0 := by
        rw [heq]
        exact lt_of_lt_of_le hnp hple
      exact ⟨_, by rw [hkv, if_pos hkpos]⟩
    · rintro ⟨kk, hyat⟩
      rw [hkv] at hyat
      by_cases hpos : (enIyiSec ef f.emisyon f.mac_onlemler (-9999, none)).1 > 0
      · rcases enIyiSec_sonuc ef f.emisyon f.mac_onlemler (-9999) none with h | ⟨p, hp, h⟩
        · rw [h] at hpos
          norm_num at hpos
        · refine ⟨p, hp, ?_⟩
          rw [h, npvHesap_olcek] at hpos
          nlinarith
      · rw [if_neg hpos] at hyat
        split_ifs at hyat
  · intro k hyat
    rw [hkv] at hyat
    by_cases hpos : (enIyiSec ef f.emisyon f.mac_onlemler (-9999, none)).1 > 0
    swap
    · rw [if_neg hpos] at hyat
      split_ifs at hyat
    rw [if_pos hpos] at hyat
    have hsnd : (enIyiSec ef f.emisyon f.mac_onlemler (-9999, none)).2 = some k := by
      injection hyat
    rcases enIyiSec_sonuc ef f.emisyon f.mac_onlemler (-9999) none with h | ⟨p, hp, h⟩
    · rw [h] at hpos
      norm_num at hpos
    have hp9 : (-9999 : ℚ) < npvHesap ef f.emisyon p.2 := by
      rw [← h]
      linarith
    obtain ⟨k', l1, l2, hdec, hk', hl1, hl2, heq⟩ :=
      enIyiSec_doruk ef f.emisyon f.mac_onlemler (-9999) none ⟨p, hp, hp9⟩
    have hkk : k' = k := by
      rw [heq] at hsnd
      injection hsnd
    rw [hkk] at hdec hl1 hl2 heq
    have hbest : (enIyiSec ef f.emisyon f.mac_onlemler (-9999, none)).1
        = npvHesap ef f.emisyon k.2 := by rw [heq]
    refine ⟨?_, ⟨l1, l2, hdec, ?_, ?_⟩, ?_⟩
    · rw [hbest, npvHesap_olcek] at hpos
      nlinarith
    · intro q hq
      have hlt := hl1 q hq
      rw [npvHesap_olcek, npvHesap_olcek] at hlt
      linarith
    · intro q hq
      have hle := hl2 q hq
      rw [npvHesap_olcek, npvHesap_olcek] at hle
      linarith
    · obtain ⟨adi, oo⟩ := k
      exact ⟨rfl, rfl, rfl, rfl⟩

/-- Witness for C6: a fresh tax-class `Sanayi` facility at effective
price 100 $/ton. -/
theorem c6_karar_mekanizmasi_witness :
    ((tesisOrnek Sanayi 1 false).duyarlilik ≠ "Tesvik" ∧
     (tesisOrnek Sanayi 1 false).ceza_durumu = false) ∧
    KararIddiasi cevreFiyat100 (tesisOrnek Sanayi 1 false) 100 :=
  ⟨⟨by decide, rfl⟩,
   c6_karar_mekanizmasi cevreFiyat100 (tesisOrnek Sanayi 1 false) 100 (by decide) rfl⟩

end TrZero
